import Mathlib

/-!
# Motor fault diagnosis pipeline (`Core/Src/main.c`)

A shallow embedding of the frame reception / validation / normalization /
decision pipeline of `main.c`, together with theorems about it.

Conventions of the embedding.

* `uint8_t` buffer bytes are `Fin 256`.
* A finite `float` value is the rational number it denotes.  Assignments and
  comparisons of floats are exact; the two arithmetic operations the program
  performs on floats (`x / 255.0f` and `1.0f - x`) round their exact result to
  binary32, and that rounding is the parameter `rnd : ℚ → ℚ` of the
  definitions.  A NaN score fails `>= 0.0f` as a negative score does.
* Global variables are the fields of `State`.  The field `trace` is ghost
  state: the list of externally visible steps (buffer reads, `printf` lines,
  pin writes, stores to the diagnosis globals, classifier calls, DMA re-arm)
  taken since the current cycle began, oldest first.
-/

namespace MotorFault

/-! ## Data model -/

/-- One `uint8_t`. -/
abbrev Byte := Fin 256

/-- Modelled from the spec: the four LED pin masks `LD3_Pin`, `LD4_Pin`,
`LD5_Pin`, `LD6_Pin` of `main.h` (absent from the sources), four distinct
output signals of port `GPIOD`: DataError, Healthy, Fault, SystemError. -/
inductive Pin
  | LD3
  | LD4
  | LD5
  | LD6
  deriving DecidableEq, Repr

/-- The LED bits of the `GPIOD` output register. -/
structure Gpio where
  ld3 : Bool
  ld4 : Bool
  ld5 : Bool
  ld6 : Bool
  deriving DecidableEq, Repr

/-- Modelled from the spec: the HAL primitive `HAL_GPIO_WritePin(GPIOD, mask, v)`
(absent from the sources): every pin of the mask `p1 | p2 | …` is driven to
`v` (`GPIO_PIN_SET` is `true`), every other pin keeps its level. -/
def HAL_GPIO_WritePin (g : Gpio) (mask : List Pin) (v : Bool) : Gpio :=
  { ld3 := if Pin.LD3 ∈ mask then v else g.ld3
    ld4 := if Pin.LD4 ∈ mask then v else g.ld4
    ld5 := if Pin.LD5 ∈ mask then v else g.ld5
    ld6 := if Pin.LD6 ∈ mask then v else g.ld6 }

/-- The `printf` calls of the pipeline: one constructor per format string,
carrying the value substituted for `%.4f` where there is one. -/
inductive Line
  /-- format `"AI model not initialized!\r\n"` -/
  | aiNotInitialized
  /-- format `"Starting CNN inference...\r\n"` -/
  | startingInference
  /-- format `"CNN inference failed!\r\n"` -/
  | cnnFailed
  /-- format `"CNN inference completed. Result: %.4f\r\n"` -/
  | cnnCompleted (result : ℚ)
  /-- format `"DIAGNOSIS: FAULT detected (confidence: %.4f)\r\n"` -/
  | diagnosisFault (confidence : ℚ)
  /-- format `"DIAGNOSIS: HEALTHY motor (confidence: %.4f)\r\n"` -/
  | diagnosisHealthy (confidence : ℚ)
  /-- format `"STFT data received successfully!\r\n"` -/
  | dataReceived
  /-- format `"Normalizing STFT data...\r\n"` -/
  | normalizing
  /-- format `"Performing CNN inference...\r\n"` -/
  | performing
  /-- format `"RESULT: FAULT_DETECTED,%.4f\r\n"` -/
  | resultFault (confidence : ℚ)
  /-- format `"RESULT: MOTOR_HEALTHY,%.4f\r\n"` -/
  | resultHealthy (confidence : ℚ)
  /-- format `"Inference failed! Check AI model.\r\n"` -/
  | inferenceFailed
  /-- format `"Invalid STFT data received!\r\n"` -/
  | invalidData
  deriving DecidableEq, Repr

/-- Externally visible steps of the pipeline. -/
inductive Event
  /-- the store `uart_dma_rx_done = 0` -/
  | flagClear
  /-- a read of `uart_dma_rx_buffer[i]` -/
  | bufRead (i : Nat)
  /-- a store to element `i` of the classifier input buffer `data_ins[0]` -/
  | inputWrite (i : Nat)
  /-- a call of `ai_run()`, with the contents of the input buffer at the call -/
  | aiRun (input : List ℚ)
  /-- a `printf` -/
  | print (l : Line)
  /-- the call `HAL_GPIO_WritePin(GPIOD, mask, v)` -/
  | gpio (mask : List Pin) (v : Bool)
  /-- a store to `diagnosis_result` -/
  | setDiagnosis (v : Nat)
  /-- a store to `confidence_score` -/
  | setConfidence (v : ℚ)
  /-- the call `HAL_UART_Receive_DMA(&huart2, uart_dma_rx_buffer + offset, length)` -/
  | startReceive (offset : Nat) (length : Nat)
  deriving DecidableEq, Repr

/-- The external classifier entry point `ai_run()`: from the contents of the
input buffer `data_ins[0]` and of the output buffer `data_outs[0]` it yields
its return code and the new contents of the output buffer. -/
abbrev AiRun := List ℚ → List ℚ → Int × List ℚ

/-- The global variables of `main.c` the pipeline uses. -/
structure State where
  /-- global `static uint8_t uart_dma_rx_buffer[4098]` -/
  uart_dma_rx_buffer : List Byte
  /-- global `static float normalized_stft[4096]` -/
  normalized_stft : List ℚ
  /-- global `volatile uint8_t uart_dma_rx_done` -/
  uart_dma_rx_done : Nat
  /-- global `volatile uint8_t diagnosis_result` (0 healthy, 1 fault) -/
  diagnosis_result : Nat
  /-- global `volatile float confidence_score` -/
  confidence_score : ℚ
  /-- global `data_ins[0]`: `none` is `NULL`, `some b` points to a buffer holding `b` -/
  data_ins0 : Option (List ℚ)
  /-- global `data_outs[0]`: `none` is `NULL`, `some b` points to a buffer holding `b` -/
  data_outs0 : Option (List ℚ)
  /-- the LED pins of `GPIOD` -/
  gpiod : Gpio
  /-- ghost: the visible steps of the current cycle, oldest first -/
  trace : List Event
  deriving DecidableEq, Repr

/-- Append one visible step to the ghost trace. -/
def State.emit (st : State) (e : Event) : State :=
  { st with trace := st.trace ++ [e] }

/-- A `printf` call. -/
def State.printf (st : State) (l : Line) : State :=
  st.emit (Event.print l)

/-- The call `HAL_GPIO_WritePin(GPIOD, mask, v)`. -/
def State.writePin (st : State) (mask : List Pin) (v : Bool) : State :=
  { st with gpiod := HAL_GPIO_WritePin st.gpiod mask v
            trace := st.trace ++ [Event.gpio mask v] }

/-- A C loop `for (int i = 0; i < n; i++) body`, as the fold of the body over
`0, 1, …, n-1`. -/
@[irreducible]
def forLoop {σ : Type} (n : Nat) (body : Nat → σ → σ) (s : σ) : σ :=
  (List.range n).foldl (fun acc i => body i acc) s

/-! ## `normalize_stft_data` -/

/-- Body of the loop of `normalize_stft_data`:
`normalized_data[i] = (float)raw_data[i] / 255.0f`.  The accumulator is the
output array together with the indices of `raw_data` read so far. -/
def normalize_body (rnd : ℚ → ℚ) (raw_data : List Byte) (i : Nat)
    (acc : List ℚ × List Nat) : List ℚ × List Nat :=
  (acc.1.set i (rnd ((((raw_data.getD i 0).val : ℕ) : ℚ) / 255)), acc.2 ++ [i])

/-- The function `normalize_stft_data(raw_data, normalized_data)`: the array
`normalized_data` after the call, and the indices of `raw_data` it read, in
order. -/
def normalize_stft_data (rnd : ℚ → ℚ) (raw_data : List Byte)
    (normalized_data : List ℚ) : List ℚ × List Nat :=
  forLoop 4096 (normalize_body rnd raw_data) (normalized_data, [])

/-! ## `perform_cnn_inference` -/

/-- Body of the copy loop of `perform_cnn_inference`:
`((float*)data_ins[0])[i] = stft_data[i]`.  The accumulator is the input
buffer together with the stores made so far. -/
def copy_body (stft_data : List ℚ) (i : Nat)
    (acc : List ℚ × List Event) : List ℚ × List Event :=
  (acc.1.set i (stft_data.getD i 0), acc.2 ++ [Event.inputWrite i])

/-- The function `perform_cnn_inference(stft_data)`: its return value and the
state after the call. -/
def perform_cnn_inference (ai_run : AiRun) (stft_data : List ℚ) (st : State) :
    ℚ × State :=
  match st.data_ins0, st.data_outs0 with
  | none, _ => (-1, st.printf Line.aiNotInitialized)
  | some _, none => (-1, st.printf Line.aiNotInitialized)
  | some inbuf, some outbuf =>
    let copied := forLoop 4096 (copy_body stft_data) (inbuf, [])
    let st1 : State :=
      { st with data_ins0 := some copied.1, trace := st.trace ++ copied.2 }
    let st2 := st1.printf Line.startingInference
    let r := ai_run copied.1 outbuf
    let st3 : State :=
      { st2 with data_outs0 := some r.2
                 trace := st2.trace ++ [Event.aiRun copied.1] }
    if r.1 ≠ 0 then
      (-1, st3.printf Line.cnnFailed)
    else
      let result := r.2.getD 0 0
      (result, st3.printf (Line.cnnCompleted result))

/-! ## `update_diagnosis_status` -/

/-- The function `update_diagnosis_status(inference_result)`. -/
def update_diagnosis_status (rnd : ℚ → ℚ) (inference_result : ℚ) (st : State) :
    State :=
  let st1 : State :=
    { st with confidence_score := inference_result
              trace := st.trace ++ [Event.setConfidence inference_result] }
  if inference_result > 1 / 2 then
    let st2 : State :=
      { st1 with diagnosis_result := 1
                 trace := st1.trace ++ [Event.setDiagnosis 1] }
    let st3 := st2.printf (Line.diagnosisFault inference_result)
    let st4 := st3.writePin [Pin.LD5] true
    st4.writePin [Pin.LD4, Pin.LD6] false
  else
    let st2 : State :=
      { st1 with diagnosis_result := 0
                 trace := st1.trace ++ [Event.setDiagnosis 0] }
    let st3 := st2.printf (Line.diagnosisHealthy (rnd (1 - inference_result)))
    let st4 := st3.writePin [Pin.LD4] true
    st4.writePin [Pin.LD5, Pin.LD6] false

/-! ## The main loop -/

/-- The sentinel test `uart_dma_rx_buffer[0] == 0xFF &&
uart_dma_rx_buffer[4097] == 0xFE` of the main loop: its value and the state
after it.  The footer is read only when the header matches. -/
def check_sentinels (st : State) : Bool × State :=
  let st1 := st.emit (Event.bufRead 0)
  if st.uart_dma_rx_buffer.getD 0 0 = 0xFF then
    let st2 := st1.emit (Event.bufRead 4097)
    (decide (st.uart_dma_rx_buffer.getD 4097 0 = 0xFE), st2)
  else
    (false, st1)

/-- The first steps of the accepted branch of the main loop (lines 262-269):
the normalization of the payload, which starts at `&uart_dma_rx_buffer[1]`. -/
def normalize_stage (rnd : ℚ → ℚ) (st : State) : State :=
  let st1 := st.printf Line.dataReceived
  let st2 := st1.printf Line.normalizing
  let n := normalize_stft_data rnd (st2.uart_dma_rx_buffer.drop 1) st2.normalized_stft
  let st3 : State :=
    { st2 with normalized_stft := n.1
               trace := st2.trace ++ n.2.map (fun i => Event.bufRead (1 + i)) }
  st3.printf Line.performing

/-- The last steps of the accepted branch of the main loop (lines 273-287):
the handling of the value `inference_result` that `perform_cnn_inference`
returned, in the state `st` it left. -/
def handle_result (rnd : ℚ → ℚ) (inference_result : ℚ) (st : State) : State :=
  if inference_result ≥ 0 then
    let st1 := update_diagnosis_status rnd inference_result st
    if st1.diagnosis_result = 1 then
      st1.printf (Line.resultFault st1.confidence_score)
    else
      st1.printf (Line.resultHealthy st1.confidence_score)
  else
    let st1 := st.printf Line.inferenceFailed
    let st2 := st1.writePin [Pin.LD6] true
    st2.writePin [Pin.LD4, Pin.LD5] false

/-- The accepted branch of the main loop (lines 262-287): normalization,
inference, and the handling of the inference result. -/
def process_valid (rnd : ℚ → ℚ) (ai_run : AiRun) (st : State) : State :=
  let st1 := normalize_stage rnd st
  let p := perform_cnn_inference ai_run st1.normalized_stft st1
  handle_result rnd p.1 p.2

/-- The rejected branch of the main loop (lines 290-293). -/
def process_invalid (st : State) : State :=
  let st1 := st.printf Line.invalidData
  let st2 := st1.writePin [Pin.LD3] true
  st2.writePin [Pin.LD4, Pin.LD5, Pin.LD6] false

/-- One pass through the user code of the `while (1)` loop of `main`
(lines 257-298). -/
def main_loop_body (rnd : ℚ → ℚ) (ai_run : AiRun) (st : State) : State :=
  if st.uart_dma_rx_done ≠ 0 then
    let st1 : State :=
      { st with uart_dma_rx_done := 0, trace := st.trace ++ [Event.flagClear] }
    let c := check_sentinels st1
    let st2 := if c.1 then process_valid rnd ai_run c.2 else process_invalid c.2
    st2.emit (Event.startReceive 0 4098)
  else
    st

/-- The callback `HAL_UART_RxCpltCallback(huart)`; the flag tells whether
`huart->Instance == USART2`. -/
def HAL_UART_RxCpltCallback (isUsart2 : Bool) (st : State) : State :=
  if isUsart2 then { st with uart_dma_rx_done := 1 } else st

/-- The armed DMA transfer completes: the received block replaces the contents
of `uart_dma_rx_buffer` and the completion callback runs for `USART2`. -/
def dma_complete (block : List Byte) (st : State) : State :=
  HAL_UART_RxCpltCallback true { st with uart_dma_rx_buffer := block }

/-- One processing cycle: a block is received and the main loop handles it.
The ghost trace starts empty, so that afterwards it holds the steps of this
cycle. -/
def cycle (rnd : ℚ → ℚ) (ai_run : AiRun) (block : List Byte) (st : State) : State :=
  main_loop_body rnd ai_run (dma_complete block { st with trace := [] })

/-- The state in which `main` enters its loop (lines 200-246): the classifier
bindings have passed `ai_init_check`, all four LEDs are off (`MX_GPIO_Init`),
no diagnosis has been made, and the first reception is armed. -/
def startup (inbuf outbuf : List ℚ) : State :=
  { uart_dma_rx_buffer := List.replicate 4098 0
    normalized_stft := List.replicate 4096 0
    uart_dma_rx_done := 0
    diagnosis_result := 0
    confidence_score := 0
    data_ins0 := some inbuf
    data_outs0 := some outbuf
    gpiod := { ld3 := false, ld4 := false, ld5 := false, ld6 := false }
    trace := [] }

/-- A sequence of processing cycles, each with its received block and the
behaviour of the classifier during it. -/
def run (rnd : ℚ → ℚ) (cycles : List (AiRun × List Byte)) (st : State) : State :=
  cycles.foldl (fun s c => cycle rnd c.1 c.2 s) st

/-! ## Vocabulary of the statements -/

/-- The visible reads of the call
`normalize_stft_data(&uart_dma_rx_buffer[1], normalized_stft)`. -/
def normalize_reads : List Event :=
  (List.range 4096).map (fun i => Event.bufRead (1 + i))

/-- The visible stores of the copy loop of `perform_cnn_inference`. -/
def copy_writes : List Event :=
  (List.range 4096).map Event.inputWrite

/-- The visible steps of an accepted cycle up to the call of
`perform_cnn_inference`. -/
def valid_lead : List Event :=
  [Event.flagClear, Event.bufRead 0, Event.bufRead 4097,
   Event.print Line.dataReceived, Event.print Line.normalizing] ++
  normalize_reads ++ [Event.print Line.performing]

/-- The contents of `normalized_stft` after the main loop has normalized the
payload of `block` (line 266), when the array held `old` before. -/
def normalized_payload (rnd : ℚ → ℚ) (block : List Byte) (old : List ℚ) : List ℚ :=
  (normalize_stft_data rnd (block.drop 1) old).1

/-- The contents of the classifier input buffer after the copy loop of
`perform_cnn_inference(stft_data)`, when the buffer held `inbuf` before. -/
def copied_input (stft_data : List ℚ) (inbuf : List ℚ) : List ℚ :=
  (forLoop 4096 (copy_body stft_data) (inbuf, [])).1

/-- The state of the main loop when it calls `perform_cnn_inference` (line 270)
in the cycle that receives `block` in state `st`, the block being accepted. -/
def state_at_inference (rnd : ℚ → ℚ) (block : List Byte) (st : State) : State :=
  let st0 : State :=
    { (dma_complete block { st with trace := [] }) with
        uart_dma_rx_done := 0, trace := [Event.flagClear] }
  normalize_stage rnd (check_sentinels st0).2

/-- The value `perform_cnn_inference` returns (line 270) in the cycle that
receives the accepted block `block` in state `st`. -/
def inference_value (rnd : ℚ → ℚ) (ai_run : AiRun) (block : List Byte) (st : State) : ℚ :=
  let s := state_at_inference rnd block st
  (perform_cnn_inference ai_run s.normalized_stft s).1

/-- A `RESULT: …` line. -/
def Event.isResult : Event → Bool
  | Event.print (Line.resultFault _) => true
  | Event.print (Line.resultHealthy _) => true
  | _ => false

/-- A read of the receive buffer. -/
def Event.isBufRead : Event → Bool
  | Event.bufRead _ => true
  | _ => false

/-- A re-arm of reception. -/
def Event.isStartReceive : Event → Bool
  | Event.startReceive _ _ => true
  | _ => false

/-- A use of the classifier: a store to its input buffer or a call of `ai_run`. -/
def Event.isClassifierUse : Event → Bool
  | Event.inputWrite _ => true
  | Event.aiRun _ => true
  | _ => false

/-- A call of `ai_run`. -/
def Event.isAiRun : Event → Bool
  | Event.aiRun _ => true
  | _ => false

/-- A store to `diagnosis_result` or to `confidence_score`. -/
def Event.isDiagnosisStore : Event → Bool
  | Event.setDiagnosis _ => true
  | Event.setConfidence _ => true
  | _ => false

/-- The number of LEDs that are on. -/
def Gpio.active (g : Gpio) : Nat :=
  g.ld3.toNat + g.ld4.toNat + g.ld5.toNat + g.ld6.toNat

/-- A well-framed block: header `0xFF`, the given 4096 payload bytes, footer
`0xFE`. -/
def framed (header : Byte) (payload : List Byte) (footer : Byte) : List Byte :=
  header :: (payload ++ [footer])

/-- The payload of the end-to-end scenarios: 4096 bytes of value 0. -/
def zero_payload : List Byte :=
  List.replicate 4096 0

/-- A classifier stub: `ai_run` returns `rc` and leaves `out` in the output
buffer, whatever the input. -/
def stub (rc : Int) (out : List ℚ) : AiRun :=
  fun _ _ => (rc, out)

/-! ## Loops -/

theorem forLoop_succ {σ : Type} (n : Nat) (body : Nat → σ → σ) (s : σ) :
    forLoop (n + 1) body s = body n (forLoop n body s) := by
  simp [forLoop, List.range_succ, List.foldl_append]

theorem forLoop_zero {σ : Type} (body : Nat → σ → σ) (s : σ) :
    forLoop 0 body s = s := by
  simp [forLoop]

theorem normalize_loop_length (rnd : ℚ → ℚ) (raw : List Byte) (n : Nat)
    (acc : List ℚ × List Nat) :
    (forLoop n (normalize_body rnd raw) acc).1.length = acc.1.length := by
  induction n with
  | zero => simp [forLoop_zero]
  | succ k ih => rw [forLoop_succ]; simpa [normalize_body] using ih

theorem normalize_loop_reads (rnd : ℚ → ℚ) (raw : List Byte) (n : Nat)
    (acc : List ℚ × List Nat) :
    (forLoop n (normalize_body rnd raw) acc).2 = acc.2 ++ List.range n := by
  induction n with
  | zero => simp [forLoop_zero]
  | succ k ih =>
    rw [forLoop_succ]
    simp [normalize_body, ih, List.range_succ]

theorem normalize_loop_getElem? (rnd : ℚ → ℚ) (raw : List Byte) (n : Nat)
    (acc : List ℚ × List Nat) (i : Nat) :
    (forLoop n (normalize_body rnd raw) acc).1[i]? =
      if i < n ∧ i < acc.1.length then
        some (rnd ((((raw.getD i 0).val : ℕ) : ℚ) / 255))
      else acc.1[i]? := by
  induction n with
  | zero => simp [forLoop_zero]
  | succ k ih =>
    rw [forLoop_succ]
    simp only [normalize_body]
    rw [List.getElem?_set, ih, normalize_loop_length]
    by_cases hik : k = i
    · subst hik
      by_cases hlen : k < acc.1.length
      · simp [hlen]
      · have hnone : acc.1[k]? = none := List.getElem?_eq_none (by omega)
        simp [hlen, hnone]
    · have h1 : (i < k + 1 ∧ i < acc.1.length) ↔ (i < k ∧ i < acc.1.length) := by
        constructor
        · rintro ⟨a, b⟩; exact ⟨by omega, b⟩
        · rintro ⟨a, b⟩; exact ⟨by omega, b⟩
      simp only [hik, if_false, h1]

theorem copy_loop_length (src : List ℚ) (n : Nat) (acc : List ℚ × List Event) :
    (forLoop n (copy_body src) acc).1.length = acc.1.length := by
  induction n with
  | zero => simp [forLoop_zero]
  | succ k ih => rw [forLoop_succ]; simpa [copy_body] using ih

theorem copy_loop_writes (src : List ℚ) (n : Nat) (acc : List ℚ × List Event) :
    (forLoop n (copy_body src) acc).2 =
      acc.2 ++ (List.range n).map Event.inputWrite := by
  induction n with
  | zero => simp [forLoop_zero]
  | succ k ih =>
    rw [forLoop_succ]
    simp [copy_body, ih, List.range_succ]

theorem copy_loop_getElem? (src : List ℚ) (n : Nat) (acc : List ℚ × List Event)
    (i : Nat) :
    (forLoop n (copy_body src) acc).1[i]? =
      if i < n ∧ i < acc.1.length then some (src.getD i 0) else acc.1[i]? := by
  induction n with
  | zero => simp [forLoop_zero]
  | succ k ih =>
    rw [forLoop_succ]
    simp only [copy_body]
    rw [List.getElem?_set, ih, copy_loop_length]
    by_cases hik : k = i
    · subst hik
      by_cases hlen : k < acc.1.length
      · simp [hlen]
      · have hnone : acc.1[k]? = none := List.getElem?_eq_none (by omega)
        simp [hlen, hnone]
    · have h1 : (i < k + 1 ∧ i < acc.1.length) ↔ (i < k ∧ i < acc.1.length) := by
        constructor
        · rintro ⟨a, b⟩; exact ⟨by omega, b⟩
        · rintro ⟨a, b⟩; exact ⟨by omega, b⟩
      simp only [hik, if_false, h1]

theorem normalize_stft_data_reads (rnd : ℚ → ℚ) (raw : List Byte) (out : List ℚ) :
    (normalize_stft_data rnd raw out).2 = List.range 4096 := by
  simp [normalize_stft_data, normalize_loop_reads]

theorem normalize_stft_data_length (rnd : ℚ → ℚ) (raw : List Byte) (out : List ℚ) :
    (normalize_stft_data rnd raw out).1.length = out.length := by
  simp [normalize_stft_data, normalize_loop_length]

theorem normalize_stft_data_getElem? (rnd : ℚ → ℚ) (raw : List Byte) (out : List ℚ)
    (i : Nat) (hi : i < 4096) (ho : out.length = 4096) :
    (normalize_stft_data rnd raw out).1[i]? =
      some (rnd ((((raw.getD i 0).val : ℕ) : ℚ) / 255)) := by
  rw [normalize_stft_data, normalize_loop_getElem?]
  simp [hi, ho]

/-! ## The paths of a cycle -/

theorem getD_eq_iff_of_ne {α : Type} (o : Option α) (d v : α) (h : d ≠ v) :
    o.getD d = v ↔ o = some v := by
  cases o with
  | none => simp [h]
  | some a => simp

theorem perform_cnn_inference_null (ai_run : AiRun) (x : List ℚ) (st : State)
    (h : st.data_ins0 = none ∨ st.data_outs0 = none) :
    perform_cnn_inference ai_run x st = (-1, st.printf Line.aiNotInitialized) := by
  unfold perform_cnn_inference
  rcases h with h | h
  · rw [h]
  · rw [h]
    cases st.data_ins0 <;> rfl

theorem perform_cnn_inference_bound (ai_run : AiRun) (x : List ℚ) (st : State)
    (inbuf outbuf : List ℚ) (hi : st.data_ins0 = some inbuf)
    (ho : st.data_outs0 = some outbuf) :
    perform_cnn_inference ai_run x st =
      if (ai_run (copied_input x inbuf) outbuf).1 ≠ 0 then
        (-1, { st with
                data_ins0 := some (copied_input x inbuf)
                data_outs0 := some (ai_run (copied_input x inbuf) outbuf).2
                trace := st.trace ++ copy_writes ++
                  [Event.print Line.startingInference,
                   Event.aiRun (copied_input x inbuf),
                   Event.print Line.cnnFailed] })
      else
        ((ai_run (copied_input x inbuf) outbuf).2.getD 0 0,
          { st with
              data_ins0 := some (copied_input x inbuf)
              data_outs0 := some (ai_run (copied_input x inbuf) outbuf).2
              trace := st.trace ++ copy_writes ++
                [Event.print Line.startingInference,
                 Event.aiRun (copied_input x inbuf),
                 Event.print (Line.cnnCompleted
                   ((ai_run (copied_input x inbuf) outbuf).2.getD 0 0))] }) := by
  unfold perform_cnn_inference
  rw [hi, ho]
  simp only [copied_input, copy_writes, copy_loop_writes, State.printf, State.emit,
    List.nil_append, List.append_assoc, List.singleton_append, List.cons_append]

theorem check_sentinels_valid (st : State)
    (hh : st.uart_dma_rx_buffer[0]? = some 0xFF)
    (hf : st.uart_dma_rx_buffer[4097]? = some 0xFE) :
    check_sentinels st =
      (true, { st with trace := st.trace ++ [Event.bufRead 0, Event.bufRead 4097] }) := by
  simp [check_sentinels, State.emit, hh, hf]

theorem check_sentinels_bad_header (st : State)
    (hh : st.uart_dma_rx_buffer[0]? ≠ some 0xFF) :
    check_sentinels st =
      (false, { st with trace := st.trace ++ [Event.bufRead 0] }) := by
  have h : ¬ (st.uart_dma_rx_buffer[0]?).getD 0 = (0xFF : Byte) := by
    rw [getD_eq_iff_of_ne _ _ _ (by decide)]; exact hh
  simp [check_sentinels, State.emit, h]

theorem check_sentinels_bad_footer (st : State)
    (hh : st.uart_dma_rx_buffer[0]? = some 0xFF)
    (hf : st.uart_dma_rx_buffer[4097]? ≠ some 0xFE) :
    check_sentinels st =
      (false, { st with trace := st.trace ++ [Event.bufRead 0, Event.bufRead 4097] }) := by
  have h : ¬ (st.uart_dma_rx_buffer[4097]?).getD 0 = (0xFE : Byte) := by
    rw [getD_eq_iff_of_ne _ _ _ (by decide)]; exact hf
  simp [check_sentinels, State.emit, hh, h]

theorem state_at_inference_eq (rnd : ℚ → ℚ) (block : List Byte) (st : State)
    (hh : block[0]? = some 0xFF) (hf : block[4097]? = some 0xFE) :
    state_at_inference rnd block st =
      { st with
          uart_dma_rx_buffer := block
          uart_dma_rx_done := 0
          normalized_stft := normalized_payload rnd block st.normalized_stft
          trace := valid_lead } := by
  unfold state_at_inference
  simp only [dma_complete, HAL_UART_RxCpltCallback, if_true]
  rw [check_sentinels_valid _ hh hf]
  simp [normalize_stage, State.printf, State.emit, normalize_stft_data_reads, normalize_reads,
    valid_lead, normalized_payload]

theorem cycle_valid (rnd : ℚ → ℚ) (ai_run : AiRun) (block : List Byte) (st : State)
    (hh : block[0]? = some 0xFF) (hf : block[4097]? = some 0xFE) :
    cycle rnd ai_run block st =
      (handle_result rnd (inference_value rnd ai_run block st)
        (perform_cnn_inference ai_run (state_at_inference rnd block st).normalized_stft
          (state_at_inference rnd block st)).2).emit (Event.startReceive 0 4098) := by
  simp only [cycle, main_loop_body, inference_value, state_at_inference, dma_complete,
    HAL_UART_RxCpltCallback, if_true, List.nil_append, process_valid]
  rw [check_sentinels_valid _ hh hf]
  simp

theorem cycle_bad_header (rnd : ℚ → ℚ) (ai_run : AiRun) (block : List Byte) (st : State)
    (hh : block[0]? ≠ some 0xFF) :
    cycle rnd ai_run block st =
      { st with
          uart_dma_rx_buffer := block
          uart_dma_rx_done := 0
          gpiod := { ld3 := true, ld4 := false, ld5 := false, ld6 := false }
          trace := [Event.flagClear, Event.bufRead 0, Event.print Line.invalidData,
                    Event.gpio [Pin.LD3] true,
                    Event.gpio [Pin.LD4, Pin.LD5, Pin.LD6] false,
                    Event.startReceive 0 4098] } := by
  unfold cycle main_loop_body
  simp only [dma_complete, HAL_UART_RxCpltCallback, if_true]
  rw [check_sentinels_bad_header _ hh]
  simp [process_invalid, State.printf, State.emit, State.writePin, HAL_GPIO_WritePin]

theorem cycle_bad_footer (rnd : ℚ → ℚ) (ai_run : AiRun) (block : List Byte) (st : State)
    (hh : block[0]? = some 0xFF) (hf : block[4097]? ≠ some 0xFE) :
    cycle rnd ai_run block st =
      { st with
          uart_dma_rx_buffer := block
          uart_dma_rx_done := 0
          gpiod := { ld3 := true, ld4 := false, ld5 := false, ld6 := false }
          trace := [Event.flagClear, Event.bufRead 0, Event.bufRead 4097,
                    Event.print Line.invalidData,
                    Event.gpio [Pin.LD3] true,
                    Event.gpio [Pin.LD4, Pin.LD5, Pin.LD6] false,
                    Event.startReceive 0 4098] } := by
  unfold cycle main_loop_body
  simp only [dma_complete, HAL_UART_RxCpltCallback, if_true]
  rw [check_sentinels_bad_footer _ hh hf]
  simp [process_invalid, State.printf, State.emit, State.writePin, HAL_GPIO_WritePin]

theorem handle_result_negative (rnd : ℚ → ℚ) (v : ℚ) (st : State) (hv : v < 0) :
    handle_result rnd v st =
      { st with
          gpiod := { st.gpiod with ld4 := false, ld5 := false, ld6 := true }
          trace := st.trace ++
            [Event.print Line.inferenceFailed, Event.gpio [Pin.LD6] true,
             Event.gpio [Pin.LD4, Pin.LD5] false] } := by
  have h : ¬ (0 ≤ v) := not_le.mpr hv
  simp [handle_result, h, State.printf, State.emit, State.writePin, HAL_GPIO_WritePin]

theorem handle_result_fault (rnd : ℚ → ℚ) (v : ℚ) (st : State) (hv : 1 / 2 < v) :
    handle_result rnd v st =
      { st with
          diagnosis_result := 1
          confidence_score := v
          gpiod := { st.gpiod with ld4 := false, ld5 := true, ld6 := false }
          trace := st.trace ++
            [Event.setConfidence v, Event.setDiagnosis 1,
             Event.print (Line.diagnosisFault v), Event.gpio [Pin.LD5] true,
             Event.gpio [Pin.LD4, Pin.LD6] false, Event.print (Line.resultFault v)] } := by
  have h0 : 0 ≤ v := by linarith
  have h2 : (2 : ℚ)⁻¹ < v := by rw [← one_div]; exact hv
  simp [handle_result, update_diagnosis_status, h0, h2, State.printf, State.emit,
    State.writePin, HAL_GPIO_WritePin]

theorem handle_result_healthy (rnd : ℚ → ℚ) (v : ℚ) (st : State) (h0 : 0 ≤ v)
    (hv : v ≤ 1 / 2) :
    handle_result rnd v st =
      { st with
          diagnosis_result := 0
          confidence_score := v
          gpiod := { st.gpiod with ld4 := true, ld5 := false, ld6 := false }
          trace := st.trace ++
            [Event.setConfidence v, Event.setDiagnosis 0,
             Event.print (Line.diagnosisHealthy (rnd (1 - v))), Event.gpio [Pin.LD4] true,
             Event.gpio [Pin.LD5, Pin.LD6] false, Event.print (Line.resultHealthy v)] } := by
  have h2 : ¬ ((2 : ℚ)⁻¹ < v) := by rw [← one_div]; exact not_lt.mpr hv
  simp [handle_result, update_diagnosis_status, h0, h2, State.printf, State.emit,
    State.writePin, HAL_GPIO_WritePin]

theorem inference_value_unavailable (rnd : ℚ → ℚ) (ai_run : AiRun) (block : List Byte)
    (st : State) (hh : block[0]? = some 0xFF) (hf : block[4097]? = some 0xFE)
    (hn : st.data_ins0 = none ∨ st.data_outs0 = none) :
    inference_value rnd ai_run block st = -1 := by
  simp only [inference_value]
  rw [perform_cnn_inference_null ai_run _ _
    (by rw [state_at_inference_eq rnd block st hh hf]; exact hn)]

theorem inference_value_bound (rnd : ℚ → ℚ) (ai_run : AiRun) (block : List Byte)
    (st : State) (inbuf outbuf : List ℚ)
    (hh : block[0]? = some 0xFF) (hf : block[4097]? = some 0xFE)
    (hi : st.data_ins0 = some inbuf) (ho : st.data_outs0 = some outbuf) :
    inference_value rnd ai_run block st =
      if (ai_run (copied_input (normalized_payload rnd block st.normalized_stft) inbuf)
            outbuf).1 ≠ 0 then -1
      else (ai_run (copied_input (normalized_payload rnd block st.normalized_stft) inbuf)
            outbuf).2.getD 0 0 := by
  simp only [inference_value]
  rw [perform_cnn_inference_bound ai_run _ _ inbuf outbuf
    (by rw [state_at_inference_eq rnd block st hh hf]; exact hi)
    (by rw [state_at_inference_eq rnd block st hh hf]; exact ho)]
  rw [state_at_inference_eq rnd block st hh hf]
  dsimp only
  by_cases h : (ai_run (copied_input (normalized_payload rnd block st.normalized_stft) inbuf)
      outbuf).1 = 0
  · simp only [ne_eq, h, not_true_eq_false, if_false]
  · simp only [ne_eq, h, not_false_eq_true, if_true]

theorem cycle_unavailable (rnd : ℚ → ℚ) (ai_run : AiRun) (block : List Byte) (st : State)
    (hh : block[0]? = some 0xFF) (hf : block[4097]? = some 0xFE)
    (hn : st.data_ins0 = none ∨ st.data_outs0 = none) :
    cycle rnd ai_run block st =
      { st with
          uart_dma_rx_buffer := block
          uart_dma_rx_done := 0
          normalized_stft := normalized_payload rnd block st.normalized_stft
          gpiod := { st.gpiod with ld4 := false, ld5 := false, ld6 := true }
          trace := valid_lead ++
            [Event.print Line.aiNotInitialized,
             Event.print Line.inferenceFailed, Event.gpio [Pin.LD6] true,
             Event.gpio [Pin.LD4, Pin.LD5] false, Event.startReceive 0 4098] } := by
  rw [cycle_valid rnd ai_run block st hh hf,
    inference_value_unavailable rnd ai_run block st hh hf hn,
    perform_cnn_inference_null ai_run _ _
      (by rw [state_at_inference_eq rnd block st hh hf]; exact hn),
    handle_result_negative rnd (-1) _ (by norm_num),
    state_at_inference_eq rnd block st hh hf]
  simp [State.printf, State.emit]

theorem cycle_bound (rnd : ℚ → ℚ) (ai_run : AiRun) (block : List Byte) (st : State)
    (inbuf outbuf : List ℚ) (rc : Int) (out : List ℚ)
    (hh : block[0]? = some 0xFF) (hf : block[4097]? = some 0xFE)
    (hi : st.data_ins0 = some inbuf) (ho : st.data_outs0 = some outbuf)
    (hr : ai_run (copied_input (normalized_payload rnd block st.normalized_stft) inbuf) outbuf
      = (rc, out)) :
    cycle rnd ai_run block st =
      (handle_result rnd (if rc ≠ 0 then -1 else out.getD 0 0)
        { st with
            uart_dma_rx_buffer := block
            uart_dma_rx_done := 0
            normalized_stft := normalized_payload rnd block st.normalized_stft
            data_ins0 := some (copied_input (normalized_payload rnd block st.normalized_stft) inbuf)
            data_outs0 := some out
            trace := valid_lead ++ copy_writes ++
              [Event.print Line.startingInference,
               Event.aiRun (copied_input (normalized_payload rnd block st.normalized_stft) inbuf),
               Event.print (if rc ≠ 0 then Line.cnnFailed
                 else Line.cnnCompleted (out.getD 0 0))] }).emit
        (Event.startReceive 0 4098) := by
  rw [cycle_valid rnd ai_run block st hh hf,
    inference_value_bound rnd ai_run block st inbuf outbuf hh hf hi ho,
    perform_cnn_inference_bound ai_run _ _ inbuf outbuf
      (by rw [state_at_inference_eq rnd block st hh hf]; exact hi)
      (by rw [state_at_inference_eq rnd block st hh hf]; exact ho),
    state_at_inference_eq rnd block st hh hf]
  dsimp only
  rw [hr]
  dsimp only
  by_cases h : rc = 0
  · simp only [ne_eq, h, not_true_eq_false, if_false]
  · simp only [ne_eq, h, not_false_eq_true, if_true]

theorem cycle_failed (rnd : ℚ → ℚ) (ai_run : AiRun) (block : List Byte) (st : State)
    (inbuf outbuf : List ℚ) (rc : Int) (out : List ℚ)
    (hh : block[0]? = some 0xFF) (hf : block[4097]? = some 0xFE)
    (hi : st.data_ins0 = some inbuf) (ho : st.data_outs0 = some outbuf)
    (hr : ai_run (copied_input (normalized_payload rnd block st.normalized_stft) inbuf) outbuf
      = (rc, out))
    (hrc : rc ≠ 0) :
    cycle rnd ai_run block st =
      { st with
          uart_dma_rx_buffer := block
          uart_dma_rx_done := 0
          normalized_stft := normalized_payload rnd block st.normalized_stft
          data_ins0 := some (copied_input (normalized_payload rnd block st.normalized_stft) inbuf)
          data_outs0 := some out
          gpiod := { st.gpiod with ld4 := false, ld5 := false, ld6 := true }
          trace := valid_lead ++ copy_writes ++
            [Event.print Line.startingInference,
             Event.aiRun (copied_input (normalized_payload rnd block st.normalized_stft) inbuf),
             Event.print Line.cnnFailed,
             Event.print Line.inferenceFailed, Event.gpio [Pin.LD6] true,
             Event.gpio [Pin.LD4, Pin.LD5] false, Event.startReceive 0 4098] } := by
  rw [cycle_bound rnd ai_run block st inbuf outbuf rc out hh hf hi ho hr]
  simp only [ne_eq, hrc, not_false_eq_true, if_true]
  rw [handle_result_negative rnd (-1) _ (by norm_num)]
  simp [State.emit]

theorem cycle_negative (rnd : ℚ → ℚ) (ai_run : AiRun) (block : List Byte) (st : State)
    (inbuf outbuf : List ℚ) (out : List ℚ)
    (hh : block[0]? = some 0xFF) (hf : block[4097]? = some 0xFE)
    (hi : st.data_ins0 = some inbuf) (ho : st.data_outs0 = some outbuf)
    (hr : ai_run (copied_input (normalized_payload rnd block st.normalized_stft) inbuf) outbuf
      = (0, out))
    (hv : out.getD 0 0 < 0) :
    cycle rnd ai_run block st =
      { st with
          uart_dma_rx_buffer := block
          uart_dma_rx_done := 0
          normalized_stft := normalized_payload rnd block st.normalized_stft
          data_ins0 := some (copied_input (normalized_payload rnd block st.normalized_stft) inbuf)
          data_outs0 := some out
          gpiod := { st.gpiod with ld4 := false, ld5 := false, ld6 := true }
          trace := valid_lead ++ copy_writes ++
            [Event.print Line.startingInference,
             Event.aiRun (copied_input (normalized_payload rnd block st.normalized_stft) inbuf),
             Event.print (Line.cnnCompleted (out.getD 0 0)),
             Event.print Line.inferenceFailed, Event.gpio [Pin.LD6] true,
             Event.gpio [Pin.LD4, Pin.LD5] false, Event.startReceive 0 4098] } := by
  rw [cycle_bound rnd ai_run block st inbuf outbuf 0 out hh hf hi ho hr]
  simp only [ne_eq, not_true_eq_false, if_false]
  rw [handle_result_negative rnd _ _ hv]
  simp [State.emit]

theorem cycle_fault (rnd : ℚ → ℚ) (ai_run : AiRun) (block : List Byte) (st : State)
    (inbuf outbuf : List ℚ) (out : List ℚ)
    (hh : block[0]? = some 0xFF) (hf : block[4097]? = some 0xFE)
    (hi : st.data_ins0 = some inbuf) (ho : st.data_outs0 = some outbuf)
    (hr : ai_run (copied_input (normalized_payload rnd block st.normalized_stft) inbuf) outbuf
      = (0, out))
    (hv : 1 / 2 < out.getD 0 0) :
    cycle rnd ai_run block st =
      { st with
          uart_dma_rx_buffer := block
          uart_dma_rx_done := 0
          normalized_stft := normalized_payload rnd block st.normalized_stft
          diagnosis_result := 1
          confidence_score := out.getD 0 0
          data_ins0 := some (copied_input (normalized_payload rnd block st.normalized_stft) inbuf)
          data_outs0 := some out
          gpiod := { st.gpiod with ld4 := false, ld5 := true, ld6 := false }
          trace := valid_lead ++ copy_writes ++
            [Event.print Line.startingInference,
             Event.aiRun (copied_input (normalized_payload rnd block st.normalized_stft) inbuf),
             Event.print (Line.cnnCompleted (out.getD 0 0)),
             Event.setConfidence (out.getD 0 0), Event.setDiagnosis 1,
             Event.print (Line.diagnosisFault (out.getD 0 0)), Event.gpio [Pin.LD5] true,
             Event.gpio [Pin.LD4, Pin.LD6] false,
             Event.print (Line.resultFault (out.getD 0 0)),
             Event.startReceive 0 4098] } := by
  rw [cycle_bound rnd ai_run block st inbuf outbuf 0 out hh hf hi ho hr]
  simp only [ne_eq, not_true_eq_false, if_false]
  rw [handle_result_fault rnd _ _ hv]
  simp [State.emit]

theorem cycle_healthy (rnd : ℚ → ℚ) (ai_run : AiRun) (block : List Byte) (st : State)
    (inbuf outbuf : List ℚ) (out : List ℚ)
    (hh : block[0]? = some 0xFF) (hf : block[4097]? = some 0xFE)
    (hi : st.data_ins0 = some inbuf) (ho : st.data_outs0 = some outbuf)
    (hr : ai_run (copied_input (normalized_payload rnd block st.normalized_stft) inbuf) outbuf
      = (0, out))
    (h0 : 0 ≤ out.getD 0 0) (hv : out.getD 0 0 ≤ 1 / 2) :
    cycle rnd ai_run block st =
      { st with
          uart_dma_rx_buffer := block
          uart_dma_rx_done := 0
          normalized_stft := normalized_payload rnd block st.normalized_stft
          diagnosis_result := 0
          confidence_score := out.getD 0 0
          data_ins0 := some (copied_input (normalized_payload rnd block st.normalized_stft) inbuf)
          data_outs0 := some out
          gpiod := { st.gpiod with ld4 := true, ld5 := false, ld6 := false }
          trace := valid_lead ++ copy_writes ++
            [Event.print Line.startingInference,
             Event.aiRun (copied_input (normalized_payload rnd block st.normalized_stft) inbuf),
             Event.print (Line.cnnCompleted (out.getD 0 0)),
             Event.setConfidence (out.getD 0 0), Event.setDiagnosis 0,
             Event.print (Line.diagnosisHealthy (rnd (1 - out.getD 0 0))),
             Event.gpio [Pin.LD4] true,
             Event.gpio [Pin.LD5, Pin.LD6] false,
             Event.print (Line.resultHealthy (out.getD 0 0)),
             Event.startReceive 0 4098] } := by
  rw [cycle_bound rnd ai_run block st inbuf outbuf 0 out hh hf hi ho hr]
  simp only [ne_eq, not_true_eq_false, if_false]
  rw [handle_result_healthy rnd _ _ h0 hv]
  simp [State.emit]

/-- Case analysis on the cycle that receives an accepted block: the classifier
is unavailable, its call fails, or it yields a negative, a high or a low
score. -/
theorem cycle_valid_elim (rnd : ℚ → ℚ) (ai_run : AiRun) (block : List Byte) (st : State)
    (hh : block[0]? = some 0xFF) (hf : block[4097]? = some 0xFE)
    (motive : State → ℚ → Prop)
    (unavailable : (st.data_ins0 = none ∨ st.data_outs0 = none) →
      motive
        { st with
            uart_dma_rx_buffer := block
            uart_dma_rx_done := 0
            normalized_stft := normalized_payload rnd block st.normalized_stft
            gpiod := { st.gpiod with ld4 := false, ld5 := false, ld6 := true }
            trace := valid_lead ++
              [Event.print Line.aiNotInitialized,
               Event.print Line.inferenceFailed, Event.gpio [Pin.LD6] true,
               Event.gpio [Pin.LD4, Pin.LD5] false, Event.startReceive 0 4098] }
        (-1))
    (failed : ∀ (inbuf outbuf : List ℚ) (rc : Int) (out : List ℚ),
      st.data_ins0 = some inbuf → st.data_outs0 = some outbuf →
      ai_run (copied_input (normalized_payload rnd block st.normalized_stft) inbuf) outbuf
        = (rc, out) →
      rc ≠ 0 →
      motive
        { st with
            uart_dma_rx_buffer := block
            uart_dma_rx_done := 0
            normalized_stft := normalized_payload rnd block st.normalized_stft
            data_ins0 :=
              some (copied_input (normalized_payload rnd block st.normalized_stft) inbuf)
            data_outs0 := some out
            gpiod := { st.gpiod with ld4 := false, ld5 := false, ld6 := true }
            trace := valid_lead ++ copy_writes ++
              [Event.print Line.startingInference,
               Event.aiRun (copied_input (normalized_payload rnd block st.normalized_stft) inbuf),
               Event.print Line.cnnFailed,
               Event.print Line.inferenceFailed, Event.gpio [Pin.LD6] true,
               Event.gpio [Pin.LD4, Pin.LD5] false, Event.startReceive 0 4098] }
        (-1))
    (negative : ∀ (inbuf outbuf : List ℚ) (out : List ℚ),
      st.data_ins0 = some inbuf → st.data_outs0 = some outbuf →
      ai_run (copied_input (normalized_payload rnd block st.normalized_stft) inbuf) outbuf
        = (0, out) →
      out.getD 0 0 < 0 →
      motive
        { st with
            uart_dma_rx_buffer := block
            uart_dma_rx_done := 0
            normalized_stft := normalized_payload rnd block st.normalized_stft
            data_ins0 :=
              some (copied_input (normalized_payload rnd block st.normalized_stft) inbuf)
            data_outs0 := some out
            gpiod := { st.gpiod with ld4 := false, ld5 := false, ld6 := true }
            trace := valid_lead ++ copy_writes ++
              [Event.print Line.startingInference,
               Event.aiRun (copied_input (normalized_payload rnd block st.normalized_stft) inbuf),
               Event.print (Line.cnnCompleted (out.getD 0 0)),
               Event.print Line.inferenceFailed, Event.gpio [Pin.LD6] true,
               Event.gpio [Pin.LD4, Pin.LD5] false, Event.startReceive 0 4098] }
        (out.getD 0 0))
    (fault : ∀ (inbuf outbuf : List ℚ) (out : List ℚ),
      st.data_ins0 = some inbuf → st.data_outs0 = some outbuf →
      ai_run (copied_input (normalized_payload rnd block st.normalized_stft) inbuf) outbuf
        = (0, out) →
      1 / 2 < out.getD 0 0 →
      motive
        { st with
            uart_dma_rx_buffer := block
            uart_dma_rx_done := 0
            normalized_stft := normalized_payload rnd block st.normalized_stft
            diagnosis_result := 1
            confidence_score := out.getD 0 0
            data_ins0 :=
              some (copied_input (normalized_payload rnd block st.normalized_stft) inbuf)
            data_outs0 := some out
            gpiod := { st.gpiod with ld4 := false, ld5 := true, ld6 := false }
            trace := valid_lead ++ copy_writes ++
              [Event.print Line.startingInference,
               Event.aiRun (copied_input (normalized_payload rnd block st.normalized_stft) inbuf),
               Event.print (Line.cnnCompleted (out.getD 0 0)),
               Event.setConfidence (out.getD 0 0), Event.setDiagnosis 1,
               Event.print (Line.diagnosisFault (out.getD 0 0)), Event.gpio [Pin.LD5] true,
               Event.gpio [Pin.LD4, Pin.LD6] false,
               Event.print (Line.resultFault (out.getD 0 0)),
               Event.startReceive 0 4098] }
        (out.getD 0 0))
    (healthy : ∀ (inbuf outbuf : List ℚ) (out : List ℚ),
      st.data_ins0 = some inbuf → st.data_outs0 = some outbuf →
      ai_run (copied_input (normalized_payload rnd block st.normalized_stft) inbuf) outbuf
        = (0, out) →
      0 ≤ out.getD 0 0 → out.getD 0 0 ≤ 1 / 2 →
      motive
        { st with
            uart_dma_rx_buffer := block
            uart_dma_rx_done := 0
            normalized_stft := normalized_payload rnd block st.normalized_stft
            diagnosis_result := 0
            confidence_score := out.getD 0 0
            data_ins0 :=
              some (copied_input (normalized_payload rnd block st.normalized_stft) inbuf)
            data_outs0 := some out
            gpiod := { st.gpiod with ld4 := true, ld5 := false, ld6 := false }
            trace := valid_lead ++ copy_writes ++
              [Event.print Line.startingInference,
               Event.aiRun (copied_input (normalized_payload rnd block st.normalized_stft) inbuf),
               Event.print (Line.cnnCompleted (out.getD 0 0)),
               Event.setConfidence (out.getD 0 0), Event.setDiagnosis 0,
               Event.print (Line.diagnosisHealthy (rnd (1 - out.getD 0 0))),
               Event.gpio [Pin.LD4] true,
               Event.gpio [Pin.LD5, Pin.LD6] false,
               Event.print (Line.resultHealthy (out.getD 0 0)),
               Event.startReceive 0 4098] }
        (out.getD 0 0)) :
    motive (cycle rnd ai_run block st) (inference_value rnd ai_run block st) := by
  rcases hi : st.data_ins0 with _ | inbuf
  · rw [cycle_unavailable rnd ai_run block st hh hf (Or.inl hi),
      inference_value_unavailable rnd ai_run block st hh hf (Or.inl hi)]
    exact unavailable (Or.inl hi)
  · rcases ho : st.data_outs0 with _ | outbuf
    · rw [cycle_unavailable rnd ai_run block st hh hf (Or.inr ho),
        inference_value_unavailable rnd ai_run block st hh hf (Or.inr ho)]
      exact unavailable (Or.inr ho)
    · rcases hr : ai_run (copied_input (normalized_payload rnd block st.normalized_stft) inbuf)
        outbuf with ⟨rc, out⟩
      rw [inference_value_bound rnd ai_run block st inbuf outbuf hh hf hi ho, hr]
      by_cases hrc : rc = 0
      · subst hrc
        simp only [ne_eq, not_true_eq_false, if_false]
        rcases lt_or_le (out.getD 0 0) 0 with hv | hv
        · rw [cycle_negative rnd ai_run block st inbuf outbuf out hh hf hi ho hr hv]
          exact negative inbuf outbuf out hi ho hr hv
        · by_cases hv2 : 1 / 2 < out.getD 0 0
          · rw [cycle_fault rnd ai_run block st inbuf outbuf out hh hf hi ho hr hv2]
            exact fault inbuf outbuf out hi ho hr hv2
          · rw [cycle_healthy rnd ai_run block st inbuf outbuf out hh hf hi ho hr hv
              (not_lt.mp hv2)]
            exact healthy inbuf outbuf out hi ho hr hv (not_lt.mp hv2)
      · simp only [ne_eq, hrc, not_false_eq_true, if_true]
        rw [cycle_failed rnd ai_run block st inbuf outbuf rc out hh hf hi ho hr hrc]
        exact failed inbuf outbuf rc out hi ho hr hrc

theorem framed_length (h f : Byte) (p : List Byte) (hp : p.length = 4096) :
    (framed h p f).length = 4098 := by
  simp [framed, hp]

theorem framed_header (h f : Byte) (p : List Byte) :
    (framed h p f)[0]? = some h := by
  simp [framed]

theorem framed_footer (h f : Byte) (p : List Byte) (hp : p.length = 4096) :
    (framed h p f)[4097]? = some f := by
  simp [framed, hp]

theorem framed_payload (h f : Byte) (p : List Byte) :
    (framed h p f).drop 1 = p ++ [f] := by
  simp [framed]

theorem zero_payload_length : zero_payload.length = 4096 :=
  List.length_replicate _ _

theorem zero_payload_getElem (i : Nat) (h : i < zero_payload.length) :
    zero_payload[i] = 0 :=
  List.getElem_replicate _ _

theorem update_diagnosis_status_label (rnd : ℚ → ℚ) (s : ℚ) (st : State) :
    (update_diagnosis_status rnd s st).diagnosis_result = if 1 / 2 < s then 1 else 0 := by
  unfold update_diagnosis_status
  by_cases h : 1 / 2 < s
  · simp only [gt_iff_lt, h, if_true, State.writePin, State.printf, State.emit]
  · simp only [gt_iff_lt, h, if_false, State.writePin, State.printf, State.emit]

theorem before_last_unique (tr : List Event) (x : Event) (hx : x.isStartReceive = true)
    (hlast : tr.getLast? = some x) (honce : tr.filter Event.isStartReceive = [x]) :
    ∀ (i j : Nat) (e : Event),
      tr[i]? = some x → tr[j]? = some e → e.isStartReceive = false → j < i := by
  obtain ⟨pre, rfl⟩ := List.getLast?_eq_some_iff.mp hlast
  have hpre : ∀ a ∈ pre, ¬ a.isStartReceive = true := by
    have h1 : pre.filter Event.isStartReceive = [] := by
      simpa [List.filter_append, hx] using honce
    exact List.filter_eq_nil_iff.mp h1
  intro i j e hi hj he
  have hi' : pre.length ≤ i := by
    by_contra hlt
    have hlt' : i < pre.length := Nat.lt_of_not_le hlt
    rw [List.getElem?_append_left hlt'] at hi
    exact hpre x (List.getElem?_mem hi) hx
  have hj' : j < pre.length := by
    by_contra hge
    have hge' : pre.length ≤ j := Nat.le_of_not_lt hge
    rw [List.getElem?_append_right hge'] at hj
    have hmem : e ∈ [x] := List.getElem?_mem hj
    rw [List.mem_singleton] at hmem
    rw [hmem, hx] at he
    exact Bool.noConfusion he
  omega

theorem valid_lead_no_rearm : valid_lead.filter Event.isStartReceive = [] := by
  rw [List.filter_eq_nil_iff]
  intro a ha
  simp only [valid_lead, normalize_reads, List.mem_append, List.mem_cons, List.mem_map,
    List.mem_singleton, List.not_mem_nil, or_false] at ha
  rcases ha with (h | ⟨k, _, h⟩) | h
  · rcases h with h | h | h | h | h <;> subst h <;> simp [Event.isStartReceive]
  · subst h; simp [Event.isStartReceive]
  · subst h; simp [Event.isStartReceive]

theorem copy_writes_no_rearm : copy_writes.filter Event.isStartReceive = [] := by
  rw [List.filter_eq_nil_iff]
  intro a ha
  simp only [copy_writes, List.mem_map] at ha
  obtain ⟨k, _, h⟩ := ha
  subst h
  simp [Event.isStartReceive]

theorem bufRead_mem_valid_lead (k : Nat) (hk : k < 4098) :
    Event.bufRead k ∈ valid_lead := by
  simp only [valid_lead, normalize_reads, List.mem_append, List.mem_cons, List.mem_map,
    List.mem_singleton, List.mem_range]
  by_cases h0 : k = 0
  · subst h0; simp
  · by_cases h1 : k = 4097
    · subst h1; simp
    · left; right
      exact ⟨k - 1, by omega, by congr 1; omega⟩

theorem filter_valid_lead (p : Event → Bool) (h1 : p Event.flagClear = false)
    (h2 : ∀ k, p (Event.bufRead k) = false)
    (h3 : p (Event.print Line.dataReceived) = false)
    (h4 : p (Event.print Line.normalizing) = false)
    (h5 : p (Event.print Line.performing) = false) :
    valid_lead.filter p = [] := by
  rw [List.filter_eq_nil_iff]
  intro a ha
  simp only [valid_lead, normalize_reads, List.mem_append, List.mem_cons, List.mem_map,
    List.mem_singleton, List.not_mem_nil, or_false] at ha
  rcases ha with (h | ⟨k, _, h⟩) | h
  · rcases h with h | h | h | h | h <;> subst h <;> simp [h1, h2, h3, h4]
  · subst h; simp [h2]
  · subst h; simp [h5]

theorem filter_copy_writes (p : Event → Bool) (h : ∀ k, p (Event.inputWrite k) = false) :
    copy_writes.filter p = [] := by
  rw [List.filter_eq_nil_iff]
  intro a ha
  simp only [copy_writes, List.mem_map] at ha
  obtain ⟨k, _, hk⟩ := ha
  subst hk
  simp [h]

theorem valid_lead_no_result : valid_lead.filter Event.isResult = [] :=
  filter_valid_lead _ rfl (fun _ => rfl) rfl rfl rfl

theorem copy_writes_no_result : copy_writes.filter Event.isResult = [] :=
  filter_copy_writes _ (fun _ => rfl)

theorem valid_lead_no_store : valid_lead.filter Event.isDiagnosisStore = [] :=
  filter_valid_lead _ rfl (fun _ => rfl) rfl rfl rfl

theorem copy_writes_no_store : copy_writes.filter Event.isDiagnosisStore = [] :=
  filter_copy_writes _ (fun _ => rfl)

theorem cycle_success_result (rnd : ℚ → ℚ) (ai_run : AiRun) (block : List Byte) (st : State)
    (inbuf outbuf : List ℚ) (v : ℚ) (rest : List ℚ)
    (hh : block[0]? = some 0xFF) (hf : block[4097]? = some 0xFE)
    (hi : st.data_ins0 = some inbuf) (ho : st.data_outs0 = some outbuf)
    (hr : ai_run (copied_input (normalized_payload rnd block st.normalized_stft) inbuf) outbuf
      = (0, v :: rest))
    (hv : 0 ≤ v) :
    (cycle rnd ai_run block st).trace.filter Event.isResult =
      [Event.print (if 1 / 2 < v
        then Line.resultFault (cycle rnd ai_run block st).confidence_score
        else Line.resultHealthy (cycle rnd ai_run block st).confidence_score)] ∧
    (cycle rnd ai_run block st).diagnosis_result = (if 1 / 2 < v then 1 else 0) ∧
    (cycle rnd ai_run block st).confidence_score = v := by
  have hg : (v :: rest).getD 0 0 = v := by simp
  by_cases h : 1 / 2 < v
  · rw [cycle_fault rnd ai_run block st inbuf outbuf (v :: rest) hh hf hi ho hr
      (by rw [hg]; exact h)]
    simp only [hg, h, if_true]
    refine ⟨?_, trivial, trivial⟩
    simp [valid_lead_no_result, copy_writes_no_result, Event.isResult]
  · rw [cycle_healthy rnd ai_run block st inbuf outbuf (v :: rest) hh hf hi ho hr
      (by rw [hg]; exact hv) (by rw [hg]; exact not_lt.mp h)]
    simp only [hg, h, if_false]
    refine ⟨?_, trivial, trivial⟩
    simp [valid_lead_no_result, copy_writes_no_result, Event.isResult]

/-! ## The claims -/

/-- C1 (the code departs from the claim): on the accepted all-zero block with a
classifier score of 0.0 the diagnosis is Healthy, the confidence held in
`confidence_score` and printed in the `RESULT: MOTOR_HEALTHY` line is the raw
score 0 and not 1.0 - 0, while the `DIAGNOSIS: HEALTHY` line of the same cycle
prints `1.0f - 0`. -/
theorem healthy_confidence_is_raw_score (rnd : ℚ → ℚ) (inbuf outbuf : List ℚ) :
    (cycle rnd (stub 0 [0]) (framed 0xFF zero_payload 0xFE)
        (startup inbuf outbuf)).diagnosis_result = 0 ∧
    (cycle rnd (stub 0 [0]) (framed 0xFF zero_payload 0xFE)
        (startup inbuf outbuf)).confidence_score = 0 ∧
    (cycle rnd (stub 0 [0]) (framed 0xFF zero_payload 0xFE)
        (startup inbuf outbuf)).confidence_score ≠ 1 - 0 ∧
    Event.print (Line.resultHealthy 0) ∈
      (cycle rnd (stub 0 [0]) (framed 0xFF zero_payload 0xFE) (startup inbuf outbuf)).trace ∧
    Event.print (Line.resultHealthy (1 - 0)) ∉
      (cycle rnd (stub 0 [0]) (framed 0xFF zero_payload 0xFE) (startup inbuf outbuf)).trace ∧
    Event.print (Line.diagnosisHealthy (rnd (1 - 0))) ∈
      (cycle rnd (stub 0 [0]) (framed 0xFF zero_payload 0xFE) (startup inbuf outbuf)).trace := by
  rw [cycle_healthy rnd (stub 0 [0]) (framed 0xFF zero_payload 0xFE) (startup inbuf outbuf)
    inbuf outbuf [0] (framed_header _ _ _) (framed_footer _ _ _ zero_payload_length)
    rfl rfl rfl (by simp) (by simp)]
  simp [valid_lead, normalize_reads, copy_writes]

/-- C2: for every score, in particular every non-negative one,
`update_diagnosis_status` sets the diagnosis to Fault exactly when the score
exceeds 0.5 and to Healthy otherwise; the label is the same from any two
previous states; a score of exactly 0.5 is Healthy and every score 0.5 + e
with e > 0 is Fault. -/
theorem update_diagnosis_status_threshold (rnd : ℚ → ℚ) (s : ℚ) (st st' : State) :
    ((update_diagnosis_status rnd s st).diagnosis_result = 1 ↔ 1 / 2 < s) ∧
    ((update_diagnosis_status rnd s st).diagnosis_result = 0 ↔ s ≤ 1 / 2) ∧
    (update_diagnosis_status rnd s st).diagnosis_result =
      (update_diagnosis_status rnd s st').diagnosis_result ∧
    (update_diagnosis_status rnd (1 / 2) st).diagnosis_result = 0 ∧
    (∀ e : ℚ, 0 < e → (update_diagnosis_status rnd (1 / 2 + e) st).diagnosis_result = 1) := by
  refine ⟨?_, ?_, ?_, ?_, ?_⟩
  · rw [update_diagnosis_status_label]
    by_cases h : 1 / 2 < s <;> simp [h]
  · rw [update_diagnosis_status_label]
    by_cases h : 1 / 2 < s
    · simp [h]
    · simp only [h, if_false, true_iff]; exact not_lt.mp h
  · rw [update_diagnosis_status_label, update_diagnosis_status_label]
  · rw [update_diagnosis_status_label]; simp
  · intro e he
    rw [update_diagnosis_status_label]
    have : (1 : ℚ) / 2 < 1 / 2 + e := by linarith
    simp only [this, if_true]

theorem update_diagnosis_status_threshold_witness :
    (update_diagnosis_status id (1 / 2) (startup [] [])).diagnosis_result = 0 ∧
    (update_diagnosis_status id (1 / 2 + 1 / 1000) (startup [] [])).diagnosis_result = 1 :=
  ⟨(update_diagnosis_status_threshold id (1 / 2) (startup [] []) (startup [] [])).2.2.2.1,
   (update_diagnosis_status_threshold id (1 / 2) (startup [] []) (startup [] [])).2.2.2.2
      (1 / 1000) (by norm_num)⟩

/-- C3: a received 4098-byte block whose byte 0 is not 0xFF or whose byte 4097
is not 0xFE takes the data-error path: LD3 is set, the classifier is not used
(no store to its input buffer, no `ai_run` call, bindings and buffers as
before), no RESULT line is printed and the invalid-data line is.  A block
with byte 0 = 0xFF and byte 4097 = 0xFE is accepted whatever its payload: the
data-received line is printed, the invalid-data line is not, the payload is
normalized, and LD3 keeps its level. -/
theorem framing_validity (rnd : ℚ → ℚ) (ai_run : AiRun) (block : List Byte) (st : State)
    (hlen : block.length = 4098) :
    ((block[0] ≠ 0xFF ∨ block[4097] ≠ 0xFE) →
      (cycle rnd ai_run block st).gpiod.ld3 = true ∧
      (∀ e ∈ (cycle rnd ai_run block st).trace, e.isClassifierUse = false) ∧
      (cycle rnd ai_run block st).data_ins0 = st.data_ins0 ∧
      (cycle rnd ai_run block st).data_outs0 = st.data_outs0 ∧
      (∀ e ∈ (cycle rnd ai_run block st).trace, e.isResult = false) ∧
      Event.print Line.invalidData ∈ (cycle rnd ai_run block st).trace) ∧
    ((block[0] = 0xFF ∧ block[4097] = 0xFE) →
      Event.print Line.dataReceived ∈ (cycle rnd ai_run block st).trace ∧
      Event.print Line.invalidData ∉ (cycle rnd ai_run block st).trace ∧
      (cycle rnd ai_run block st).normalized_stft =
        normalized_payload rnd block st.normalized_stft ∧
      (cycle rnd ai_run block st).gpiod.ld3 = st.gpiod.ld3) := by
  have e0 : block[0]? = some block[0] := List.getElem?_eq_getElem (by omega)
  have e1 : block[4097]? = some block[4097] := List.getElem?_eq_getElem (by omega)
  constructor
  · intro hbad
    by_cases hh : block[0] = 0xFF
    · have hf : block[4097] ≠ 0xFE := by
        rcases hbad with h | h
        · exact absurd hh h
        · exact h
      rw [cycle_bad_footer rnd ai_run block st (by rw [e0, hh]) (by rw [e1]; simpa using hf)]
      simp [Event.isClassifierUse, Event.isResult]
    · rw [cycle_bad_header rnd ai_run block st (by rw [e0]; simpa using hh)]
      simp [Event.isClassifierUse, Event.isResult]
  · rintro ⟨hh, hf⟩
    refine cycle_valid_elim rnd ai_run block st (by rw [e0, hh]) (by rw [e1, hf])
      (fun s _ => Event.print Line.dataReceived ∈ s.trace ∧
        Event.print Line.invalidData ∉ s.trace ∧
        s.normalized_stft = normalized_payload rnd block st.normalized_stft ∧
        s.gpiod.ld3 = st.gpiod.ld3) ?_ ?_ ?_ ?_ ?_
    · intro _
      simp [valid_lead, normalize_reads, copy_writes]
    · intro inbuf outbuf rc out _ _ _ _
      simp [valid_lead, normalize_reads, copy_writes]
    · intro inbuf outbuf out _ _ _ _
      simp [valid_lead, normalize_reads, copy_writes]
    · intro inbuf outbuf out _ _ _ _
      simp [valid_lead, normalize_reads, copy_writes]
    · intro inbuf outbuf out _ _ _ _ _
      simp [valid_lead, normalize_reads, copy_writes]

theorem framing_validity_witness :
    (framed 0x00 zero_payload 0xFE).length = 4098 ∧
    (cycle id (stub 0 [9 / 10]) (framed 0x00 zero_payload 0xFE) (startup [] [0])).gpiod.ld3
      = true ∧
    Event.print Line.dataReceived ∈
      (cycle id (stub 0 [9 / 10]) (framed 0xFF zero_payload 0xFE) (startup [] [0])).trace :=
  ⟨framed_length _ _ _ zero_payload_length,
   ((framing_validity id (stub 0 [9 / 10]) (framed 0x00 zero_payload 0xFE) (startup [] [0])
      (framed_length _ _ _ zero_payload_length)).1 (Or.inl (by simp [framed]))).1,
   ((framing_validity id (stub 0 [9 / 10]) (framed 0xFF zero_payload 0xFE) (startup [] [0])
      (framed_length _ _ _ zero_payload_length)).2
      ⟨by simp [framed], by simp [framed, zero_payload_length]⟩).1⟩

/-- C4 (the code departs from the claim): from the startup state, a cycle with a
framing error followed by a cycle with an accepted block and a healthy score
leaves two indicators on, DataError (LD3) and Healthy (LD4): the healthy path
resets LD5 and LD6 only. -/
theorem data_error_led_stays_on (rnd : ℚ → ℚ) (inbuf outbuf : List ℚ) :
    (run rnd
      [(stub 0 [1 / 5], framed 0x00 zero_payload 0xFE),
       (stub 0 [1 / 5], framed 0xFF zero_payload 0xFE)]
      (startup inbuf outbuf)).gpiod
      = { ld3 := true, ld4 := true, ld5 := false, ld6 := false } ∧
    (run rnd
      [(stub 0 [1 / 5], framed 0x00 zero_payload 0xFE),
       (stub 0 [1 / 5], framed 0xFF zero_payload 0xFE)]
      (startup inbuf outbuf)).gpiod.active = 2 := by
  simp only [run, List.foldl]
  rw [cycle_bad_header rnd _ (framed 0x00 zero_payload 0xFE) (startup inbuf outbuf)
    (by simp [framed])]
  rw [cycle_healthy rnd (stub 0 [1 / 5]) (framed 0xFF zero_payload 0xFE) _
    inbuf outbuf [1 / 5] (framed_header _ _ _) (framed_footer _ _ _ zero_payload_length)
    rfl rfl rfl (by simp) (by simp; norm_num)]
  exact ⟨rfl, rfl⟩

/-- C5: for a 4096-byte payload, `normalize_stft_data` writes the float quotient
`payload[i] / 255.0f` to `output[i]` for every `i < 4096`, the output having
the length and order of the payload; every output lies in `[0, 1]`, byte 0
gives exactly 0 and byte 255 exactly 1.  The rounding of the float division
is any monotone map that is exact on 0 and 1, as round-to-nearest is. -/
theorem normalize_stft_data_spec (rnd : ℚ → ℚ) (hmono : Monotone rnd)
    (hzero : rnd 0 = 0) (hone : rnd 1 = 1)
    (payload : List Byte) (out : List ℚ)
    (hp : payload.length = 4096) (ho : out.length = 4096) :
    (normalize_stft_data rnd payload out).1.length = payload.length ∧
    (∀ i (hi : i < 4096), (normalize_stft_data rnd payload out).1[i]? =
      some (rnd (((payload[i].val : ℕ) : ℚ) / 255))) ∧
    (∀ x ∈ (normalize_stft_data rnd payload out).1, 0 ≤ x ∧ x ≤ 1) ∧
    (∀ i (hi : i < 4096), payload[i] = 0 →
      (normalize_stft_data rnd payload out).1[i]? = some 0) ∧
    (∀ i (hi : i < 4096), payload[i] = 255 →
      (normalize_stft_data rnd payload out).1[i]? = some 1) := by
  have hidx : ∀ i (hi : i < 4096), (normalize_stft_data rnd payload out).1[i]? =
      some (rnd (((payload[i].val : ℕ) : ℚ) / 255)) := by
    intro i hi
    rw [normalize_stft_data_getElem? rnd payload out i hi ho]
    have hget : payload[i]? = some payload[i] := List.getElem?_eq_getElem (by omega)
    simp [hget]
  have hrange : ∀ b : Byte, 0 ≤ rnd (((b.val : ℕ) : ℚ) / 255) ∧
      rnd (((b.val : ℕ) : ℚ) / 255) ≤ 1 := by
    intro b
    have hb : ((b.val : ℕ) : ℚ) ≤ 255 := by
      have := b.isLt
      exact_mod_cast Nat.lt_succ_iff.mp this
    have h0 : (0 : ℚ) ≤ ((b.val : ℕ) : ℚ) / 255 := by positivity
    have h1 : ((b.val : ℕ) : ℚ) / 255 ≤ 1 := by
      rw [div_le_one (by norm_num)]; exact hb
    constructor
    · rw [← hzero]; exact hmono h0
    · rw [← hone]; exact hmono h1
  refine ⟨?_, hidx, ?_, ?_, ?_⟩
  · rw [normalize_stft_data_length, ho, hp]
  · intro x hx
    obtain ⟨i, hi, hxi⟩ := List.getElem_of_mem hx
    have hlt : i < 4096 := by
      rw [normalize_stft_data_length, ho] at hi; exact hi
    have h2 := hidx i hlt
    rw [List.getElem?_eq_getElem hi, hxi] at h2
    rw [Option.some.inj h2]
    exact hrange _
  · intro i hi hb
    rw [hidx i hi, hb]
    simp [hzero]
  · intro i hi hb
    rw [hidx i hi, hb]
    have h255 : ((255 : Byte).val : ℕ) = 255 := rfl
    rw [h255]
    norm_num [hone]

theorem normalize_stft_data_spec_witness :
    Monotone (id : ℚ → ℚ) ∧ zero_payload.length = 4096 ∧
    (normalize_stft_data id zero_payload (List.replicate 4096 7)).1[4095]? = some 0 :=
  ⟨monotone_id, zero_payload_length,
   (normalize_stft_data_spec id monotone_id rfl rfl zero_payload (List.replicate 4096 7)
      zero_payload_length (List.length_replicate _ _)).2.2.2.1 4095 (by norm_num)
      (zero_payload_getElem 4095 _)⟩

/-- C6 (the code departs from the claim): the same accepted block with the same
classifier result leaves other indicators on after a framing-error cycle than
as the first cycle after startup: LD3 is off in the first case and still on in
the second. -/
theorem framing_error_changes_next_outcome (rnd : ℚ → ℚ) (inbuf outbuf : List ℚ) :
    (cycle rnd (stub 0 [1 / 5]) (framed 0xFF zero_payload 0xFE)
      (startup inbuf outbuf)).gpiod
      = { ld3 := false, ld4 := true, ld5 := false, ld6 := false } ∧
    (cycle rnd (stub 0 [1 / 5]) (framed 0xFF zero_payload 0xFE)
      (cycle rnd (stub 0 [1 / 5]) (framed 0x00 zero_payload 0xFE)
        (startup inbuf outbuf))).gpiod
      = { ld3 := true, ld4 := true, ld5 := false, ld6 := false } := by
  constructor
  · rw [cycle_healthy rnd (stub 0 [1 / 5]) (framed 0xFF zero_payload 0xFE) _
      inbuf outbuf [1 / 5] (framed_header _ _ _) (framed_footer _ _ _ zero_payload_length)
      rfl rfl rfl (by simp) (by simp; norm_num)]
    rfl
  · rw [cycle_bad_header rnd _ (framed 0x00 zero_payload 0xFE) (startup inbuf outbuf)
      (by simp [framed])]
    rw [cycle_healthy rnd (stub 0 [1 / 5]) (framed 0xFF zero_payload 0xFE) _
      inbuf outbuf [1 / 5] (framed_header _ _ _) (framed_footer _ _ _ zero_payload_length)
      rfl rfl rfl (by simp) (by simp; norm_num)]

/-- C7: in every processing cycle reception is re-armed exactly once, by
`HAL_UART_Receive_DMA` of 4098 bytes from offset 0 of the frame buffer, as
the last step of the cycle: after the completion flag has been cleared (it is
0 afterwards) and after every read of the frame buffer, which are the reads
of all 4098 bytes when the block is accepted. -/
theorem rearm_is_last_step (rnd : ℚ → ℚ) (ai_run : AiRun) (block : List Byte) (st : State) :
    (cycle rnd ai_run block st).trace.getLast? = some (Event.startReceive 0 4098) ∧
    (cycle rnd ai_run block st).trace.filter Event.isStartReceive
      = [Event.startReceive 0 4098] ∧
    (∀ (i j : Nat) (e : Event),
      (cycle rnd ai_run block st).trace[i]? = some (Event.startReceive 0 4098) →
      (cycle rnd ai_run block st).trace[j]? = some e →
      (e = Event.flagClear ∨ e.isBufRead = true) → j < i) ∧
    Event.flagClear ∈ (cycle rnd ai_run block st).trace ∧
    (cycle rnd ai_run block st).uart_dma_rx_done = 0 ∧
    Event.bufRead 0 ∈ (cycle rnd ai_run block st).trace ∧
    (block[0]? = some 0xFF → block[4097]? = some 0xFE →
      ∀ k, k < 4098 → Event.bufRead k ∈ (cycle rnd ai_run block st).trace) := by
  have key : (cycle rnd ai_run block st).trace.getLast? = some (Event.startReceive 0 4098) ∧
      (cycle rnd ai_run block st).trace.filter Event.isStartReceive
        = [Event.startReceive 0 4098] ∧
      Event.flagClear ∈ (cycle rnd ai_run block st).trace ∧
      (cycle rnd ai_run block st).uart_dma_rx_done = 0 ∧
      Event.bufRead 0 ∈ (cycle rnd ai_run block st).trace ∧
      (block[0]? = some 0xFF → block[4097]? = some 0xFE →
        ∀ k, k < 4098 → Event.bufRead k ∈ (cycle rnd ai_run block st).trace) := by
    by_cases hh : block[0]? = some 0xFF
    · by_cases hf : block[4097]? = some 0xFE
      · refine cycle_valid_elim rnd ai_run block st hh hf
          (fun s _ => s.trace.getLast? = some (Event.startReceive 0 4098) ∧
            s.trace.filter Event.isStartReceive = [Event.startReceive 0 4098] ∧
            Event.flagClear ∈ s.trace ∧ s.uart_dma_rx_done = 0 ∧
            Event.bufRead 0 ∈ s.trace ∧
            (block[0]? = some 0xFF → block[4097]? = some 0xFE →
              ∀ k, k < 4098 → Event.bufRead k ∈ s.trace)) ?_ ?_ ?_ ?_ ?_
        · intro _
          refine ⟨by simp, by simp [valid_lead_no_rearm, Event.isStartReceive],
            by simp [valid_lead], rfl, by simp [valid_lead], ?_⟩
          intro _ _ k hk
          simp [bufRead_mem_valid_lead k hk]
        · intro inbuf outbuf rc out _ _ _ _
          refine ⟨by simp, by simp [valid_lead_no_rearm, copy_writes_no_rearm,
            Event.isStartReceive], by simp [valid_lead], rfl, by simp [valid_lead], ?_⟩
          intro _ _ k hk
          simp [bufRead_mem_valid_lead k hk]
        · intro inbuf outbuf out _ _ _ _
          refine ⟨by simp, by simp [valid_lead_no_rearm, copy_writes_no_rearm,
            Event.isStartReceive], by simp [valid_lead], rfl, by simp [valid_lead], ?_⟩
          intro _ _ k hk
          simp [bufRead_mem_valid_lead k hk]
        · intro inbuf outbuf out _ _ _ _
          refine ⟨by simp, by simp [valid_lead_no_rearm, copy_writes_no_rearm,
            Event.isStartReceive], by simp [valid_lead], rfl, by simp [valid_lead], ?_⟩
          intro _ _ k hk
          simp [bufRead_mem_valid_lead k hk]
        · intro inbuf outbuf out _ _ _ _ _
          refine ⟨by simp, by simp [valid_lead_no_rearm, copy_writes_no_rearm,
            Event.isStartReceive], by simp [valid_lead], rfl, by simp [valid_lead], ?_⟩
          intro _ _ k hk
          simp [bufRead_mem_valid_lead k hk]
      · rw [cycle_bad_footer rnd ai_run block st hh hf]
        refine ⟨by simp, by simp [Event.isStartReceive], by simp, rfl, by simp, ?_⟩
        intro _ h; exact absurd h hf
    · rw [cycle_bad_header rnd ai_run block st hh]
      refine ⟨by simp, by simp [Event.isStartReceive], by simp, rfl, by simp, ?_⟩
      intro h; exact absurd h hh
  obtain ⟨h1, h2, h3, h4, h5, h6⟩ := key
  refine ⟨h1, h2, ?_, h3, h4, h5, h6⟩
  intro i j e hi hj he
  refine before_last_unique (cycle rnd ai_run block st).trace (Event.startReceive 0 4098)
    rfl h1 h2 i j e hi hj ?_
  rcases he with he | he
  · subst he; rfl
  · cases e <;> simp_all [Event.isBufRead, Event.isStartReceive]

/-- C8: `perform_cnn_inference` returns -1 without using the classifier when the
input or the output binding is null (its only visible step is the
not-initialized line, the bindings are as before); otherwise it calls `ai_run`
exactly once, on the copied input, returns -1 when `ai_run` returns non-zero,
and on success returns the first output value of the classifier as it is,
whatever its range. -/
theorem perform_cnn_inference_contract (ai_run : AiRun) (stft_data : List ℚ) (st : State) :
    ((st.data_ins0 = none ∨ st.data_outs0 = none) →
      (perform_cnn_inference ai_run stft_data st).1 = -1 ∧
      (perform_cnn_inference ai_run stft_data st).2.trace =
        st.trace ++ [Event.print Line.aiNotInitialized] ∧
      (perform_cnn_inference ai_run stft_data st).2.data_ins0 = st.data_ins0 ∧
      (perform_cnn_inference ai_run stft_data st).2.data_outs0 = st.data_outs0) ∧
    (∀ inbuf outbuf, st.data_ins0 = some inbuf → st.data_outs0 = some outbuf →
      (∃ evs, (perform_cnn_inference ai_run stft_data st).2.trace = st.trace ++ evs ∧
        evs.filter Event.isAiRun = [Event.aiRun (copied_input stft_data inbuf)]) ∧
      ((ai_run (copied_input stft_data inbuf) outbuf).1 ≠ 0 →
        (perform_cnn_inference ai_run stft_data st).1 = -1) ∧
      (∀ v rest, ai_run (copied_input stft_data inbuf) outbuf = (0, v :: rest) →
        (perform_cnn_inference ai_run stft_data st).1 = v)) := by
  constructor
  · intro hn
    rw [perform_cnn_inference_null ai_run stft_data st hn]
    simp [State.printf, State.emit]
  · intro inbuf outbuf hi ho
    rw [perform_cnn_inference_bound ai_run stft_data st inbuf outbuf hi ho]
    have hcw : copy_writes.filter Event.isAiRun = [] :=
      filter_copy_writes _ (fun _ => rfl)
    refine ⟨?_, ?_, ?_⟩
    · by_cases h : (ai_run (copied_input stft_data inbuf) outbuf).1 = 0
      · simp only [ne_eq, h, not_true_eq_false, if_false]
        exact ⟨_, by rw [List.append_assoc], by simp [hcw, Event.isAiRun]⟩
      · simp only [ne_eq, h, not_false_eq_true, if_true]
        exact ⟨_, by rw [List.append_assoc], by simp [hcw, Event.isAiRun]⟩
    · intro h
      simp only [ne_eq, h, not_false_eq_true, if_true]
    · intro v rest hr
      simp [hr]

theorem perform_cnn_inference_contract_witness :
    (perform_cnn_inference (stub 0 [3 / 2]) [] (startup [] [0])).1 = 3 / 2 ∧
    (perform_cnn_inference (stub 1 [3 / 2]) [] (startup [] [0])).1 = -1 :=
  ⟨((perform_cnn_inference_contract (stub 0 [3 / 2]) [] (startup [] [0])).2
      [] [0] rfl rfl).2.2 (3 / 2) [] rfl,
   ((perform_cnn_inference_contract (stub 1 [3 / 2]) [] (startup [] [0])).2
      [] [0] rfl rfl).2.1 (by simp [stub])⟩

/-- C9: on an accepted block for which the classifier is unavailable or its call
returns a failure code, the cycle prints the inference-failure line and no
RESULT line, turns LD6 on and LD4 and LD5 off, clears the completion flag and
ends by re-arming reception; a classifier that was bound stays bound.  When the
next accepted block meets an available classifier that succeeds with a score
`v ≥ 0`, that cycle prints exactly one RESULT line, with the label for `v` and
the confidence it holds. -/
theorem inference_failure_cycle (rnd : ℚ → ℚ) (ai_run : AiRun) (block : List Byte)
    (st : State) (hh : block[0]? = some 0xFF) (hf : block[4097]? = some 0xFE)
    (hfail : (st.data_ins0 = none ∨ st.data_outs0 = none) ∨
      ∃ inbuf outbuf, st.data_ins0 = some inbuf ∧ st.data_outs0 = some outbuf ∧
        (ai_run (copied_input (normalized_payload rnd block st.normalized_stft) inbuf)
          outbuf).1 ≠ 0) :
    Event.print Line.inferenceFailed ∈ (cycle rnd ai_run block st).trace ∧
    (cycle rnd ai_run block st).trace.filter Event.isResult = [] ∧
    (cycle rnd ai_run block st).gpiod.ld6 = true ∧
    (cycle rnd ai_run block st).gpiod.ld4 = false ∧
    (cycle rnd ai_run block st).gpiod.ld5 = false ∧
    (cycle rnd ai_run block st).uart_dma_rx_done = 0 ∧
    (cycle rnd ai_run block st).trace.getLast? = some (Event.startReceive 0 4098) ∧
    ((cycle rnd ai_run block st).data_ins0.isSome = st.data_ins0.isSome ∧
      (cycle rnd ai_run block st).data_outs0.isSome = st.data_outs0.isSome) ∧
    (∀ (ai_run2 : AiRun) (block2 : List Byte) (inb outb : List ℚ) (v : ℚ) (rest : List ℚ),
      block2[0]? = some 0xFF → block2[4097]? = some 0xFE →
      ai_run2 (copied_input
        (normalized_payload rnd block2 (cycle rnd ai_run block st).normalized_stft) inb) outb
        = (0, v :: rest) →
      0 ≤ v →
      (cycle rnd ai_run2 block2
        { cycle rnd ai_run block st with
            data_ins0 := some inb, data_outs0 := some outb }).trace.filter Event.isResult =
        [Event.print (if 1 / 2 < v
          then Line.resultFault (cycle rnd ai_run2 block2
            { cycle rnd ai_run block st with
                data_ins0 := some inb, data_outs0 := some outb }).confidence_score
          else Line.resultHealthy (cycle rnd ai_run2 block2
            { cycle rnd ai_run block st with
                data_ins0 := some inb, data_outs0 := some outb }).confidence_score)] ∧
      (cycle rnd ai_run2 block2
        { cycle rnd ai_run block st with
            data_ins0 := some inb, data_outs0 := some outb }).diagnosis_result =
        (if 1 / 2 < v then 1 else 0)) := by
  have second : ∀ (ai_run2 : AiRun) (block2 : List Byte) (inb outb : List ℚ) (v : ℚ)
      (rest : List ℚ),
      block2[0]? = some 0xFF → block2[4097]? = some 0xFE →
      ai_run2 (copied_input
        (normalized_payload rnd block2 (cycle rnd ai_run block st).normalized_stft) inb) outb
        = (0, v :: rest) →
      0 ≤ v →
      (cycle rnd ai_run2 block2
        { cycle rnd ai_run block st with
            data_ins0 := some inb, data_outs0 := some outb }).trace.filter Event.isResult =
        [Event.print (if 1 / 2 < v
          then Line.resultFault (cycle rnd ai_run2 block2
            { cycle rnd ai_run block st with
                data_ins0 := some inb, data_outs0 := some outb }).confidence_score
          else Line.resultHealthy (cycle rnd ai_run2 block2
            { cycle rnd ai_run block st with
                data_ins0 := some inb, data_outs0 := some outb }).confidence_score)] ∧
      (cycle rnd ai_run2 block2
        { cycle rnd ai_run block st with
            data_ins0 := some inb, data_outs0 := some outb }).diagnosis_result =
        (if 1 / 2 < v then 1 else 0) := by
    intro ai_run2 block2 inb outb v rest hh2 hf2 hr2 hv
    have h := cycle_success_result rnd ai_run2 block2
      { cycle rnd ai_run block st with data_ins0 := some inb, data_outs0 := some outb }
      inb outb v rest hh2 hf2 rfl rfl hr2 hv
    exact ⟨h.1, h.2.1⟩
  have first : Event.print Line.inferenceFailed ∈ (cycle rnd ai_run block st).trace ∧
      (cycle rnd ai_run block st).trace.filter Event.isResult = [] ∧
      (cycle rnd ai_run block st).gpiod.ld6 = true ∧
      (cycle rnd ai_run block st).gpiod.ld4 = false ∧
      (cycle rnd ai_run block st).gpiod.ld5 = false ∧
      (cycle rnd ai_run block st).uart_dma_rx_done = 0 ∧
      (cycle rnd ai_run block st).trace.getLast? = some (Event.startReceive 0 4098) ∧
      ((cycle rnd ai_run block st).data_ins0.isSome = st.data_ins0.isSome ∧
        (cycle rnd ai_run block st).data_outs0.isSome = st.data_outs0.isSome) := by
    rcases hfail with hn | ⟨inbuf, outbuf, hi, ho, hrc⟩
    · rw [cycle_unavailable rnd ai_run block st hh hf hn]
      simp [valid_lead_no_result, Event.isResult]
    · rw [cycle_failed rnd ai_run block st inbuf outbuf _ _ hh hf hi ho rfl hrc]
      simp [valid_lead_no_result, copy_writes_no_result, Event.isResult, hi, ho]
  obtain ⟨h1, h2, h3, h4, h5, h6, h7, h8⟩ := first
  exact ⟨h1, h2, h3, h4, h5, h6, h7, h8, second⟩

theorem inference_failure_cycle_witness :
    (framed 0xFF zero_payload 0xFE)[0]? = some 0xFF ∧
    (framed 0xFF zero_payload 0xFE)[4097]? = some 0xFE ∧
    (cycle id (stub 1 [9 / 10]) (framed 0xFF zero_payload 0xFE) (startup [] [0])).gpiod.ld6
      = true ∧
    (cycle id (stub 1 [9 / 10]) (framed 0xFF zero_payload 0xFE)
      (startup [] [0])).trace.filter Event.isResult = [] :=
  ⟨framed_header _ _ _, framed_footer _ _ _ zero_payload_length,
   (inference_failure_cycle id (stub 1 [9 / 10]) (framed 0xFF zero_payload 0xFE)
      (startup [] [0]) (framed_header _ _ _) (framed_footer _ _ _ zero_payload_length)
      (Or.inr ⟨[], [0], rfl, rfl, by simp [stub]⟩)).2.2.1,
   (inference_failure_cycle id (stub 1 [9 / 10]) (framed 0xFF zero_payload 0xFE)
      (startup [] [0]) (framed_header _ _ _) (framed_footer _ _ _ zero_payload_length)
      (Or.inr ⟨[], [0], rfl, rfl, by simp [stub]⟩)).2.1⟩

/-- C10: a cycle stores to `diagnosis_result` and `confidence_score` exactly when
the block is accepted and the value returned by `perform_cnn_inference` is
`≥ 0`, and then it stores to both; in every other cycle (framing error,
classifier unavailable, failed call, negative classifier output) there is no
such store and both fields keep the values the previous cycle left.  The
returned value is -1 when the classifier is unavailable or its call fails and
the first classifier output otherwise. -/
theorem diagnosis_written_iff (rnd : ℚ → ℚ) (ai_run : AiRun) (block : List Byte)
    (st : State) :
    ((cycle rnd ai_run block st).trace.filter Event.isDiagnosisStore ≠ [] ↔
      ((block[0]? = some 0xFF ∧ block[4097]? = some 0xFE) ∧
        0 ≤ inference_value rnd ai_run block st)) ∧
    (((block[0]? = some 0xFF ∧ block[4097]? = some 0xFE) ∧
        0 ≤ inference_value rnd ai_run block st) →
      (cycle rnd ai_run block st).trace.filter Event.isDiagnosisStore =
        [Event.setConfidence (cycle rnd ai_run block st).confidence_score,
         Event.setDiagnosis (cycle rnd ai_run block st).diagnosis_result]) ∧
    (¬ ((block[0]? = some 0xFF ∧ block[4097]? = some 0xFE) ∧
        0 ≤ inference_value rnd ai_run block st) →
      (cycle rnd ai_run block st).trace.filter Event.isDiagnosisStore = [] ∧
      (cycle rnd ai_run block st).diagnosis_result = st.diagnosis_result ∧
      (cycle rnd ai_run block st).confidence_score = st.confidence_score) ∧
    ((block[0]? = some 0xFF ∧ block[4097]? = some 0xFE) →
      ((st.data_ins0 = none ∨ st.data_outs0 = none) →
        inference_value rnd ai_run block st = -1) ∧
      (∀ inbuf outbuf, st.data_ins0 = some inbuf → st.data_outs0 = some outbuf →
        inference_value rnd ai_run block st =
          if (ai_run (copied_input (normalized_payload rnd block st.normalized_stft) inbuf)
                outbuf).1 ≠ 0 then -1
          else (ai_run (copied_input (normalized_payload rnd block st.normalized_stft) inbuf)
                outbuf).2.getD 0 0)) := by
  have hval : (block[0]? = some 0xFF ∧ block[4097]? = some 0xFE) →
      ((st.data_ins0 = none ∨ st.data_outs0 = none) →
        inference_value rnd ai_run block st = -1) ∧
      (∀ inbuf outbuf, st.data_ins0 = some inbuf → st.data_outs0 = some outbuf →
        inference_value rnd ai_run block st =
          if (ai_run (copied_input (normalized_payload rnd block st.normalized_stft) inbuf)
                outbuf).1 ≠ 0 then -1
          else (ai_run (copied_input (normalized_payload rnd block st.normalized_stft) inbuf)
                outbuf).2.getD 0 0) := by
    rintro ⟨hh, hf⟩
    exact ⟨inference_value_unavailable rnd ai_run block st hh hf,
      fun inbuf outbuf hi ho => inference_value_bound rnd ai_run block st inbuf outbuf hh hf hi ho⟩
  have key : (0 ≤ inference_value rnd ai_run block st ∧
        (block[0]? = some 0xFF ∧ block[4097]? = some 0xFE) ∧
        (cycle rnd ai_run block st).trace.filter Event.isDiagnosisStore =
          [Event.setConfidence (cycle rnd ai_run block st).confidence_score,
           Event.setDiagnosis (cycle rnd ai_run block st).diagnosis_result]) ∨
      (¬ ((block[0]? = some 0xFF ∧ block[4097]? = some 0xFE) ∧
          0 ≤ inference_value rnd ai_run block st) ∧
        (cycle rnd ai_run block st).trace.filter Event.isDiagnosisStore = [] ∧
        (cycle rnd ai_run block st).diagnosis_result = st.diagnosis_result ∧
        (cycle rnd ai_run block st).confidence_score = st.confidence_score) := by
    by_cases hh : block[0]? = some 0xFF
    · by_cases hf : block[4097]? = some 0xFE
      · refine cycle_valid_elim rnd ai_run block st hh hf
          (fun s v =>
            (0 ≤ v ∧ (block[0]? = some 0xFF ∧ block[4097]? = some 0xFE) ∧
              s.trace.filter Event.isDiagnosisStore =
                [Event.setConfidence s.confidence_score,
                 Event.setDiagnosis s.diagnosis_result]) ∨
            (¬ ((block[0]? = some 0xFF ∧ block[4097]? = some 0xFE) ∧ 0 ≤ v) ∧
              s.trace.filter Event.isDiagnosisStore = [] ∧
              s.diagnosis_result = st.diagnosis_result ∧
              s.confidence_score = st.confidence_score)) ?_ ?_ ?_ ?_ ?_
        · intro _
          right
          refine ⟨fun h => absurd h.2 (by norm_num), ?_, rfl, rfl⟩
          simp [valid_lead_no_store, Event.isDiagnosisStore]
        · intro inbuf outbuf rc out _ _ _ _
          right
          refine ⟨fun h => absurd h.2 (by norm_num), ?_, rfl, rfl⟩
          simp [valid_lead_no_store, copy_writes_no_store, Event.isDiagnosisStore]
        · intro inbuf outbuf out _ _ _ hv
          right
          refine ⟨fun h => absurd h.2 (not_le.mpr hv), ?_, rfl, rfl⟩
          simp [valid_lead_no_store, copy_writes_no_store, Event.isDiagnosisStore]
        · intro inbuf outbuf out _ _ _ hv
          left
          refine ⟨by linarith, ⟨hh, hf⟩, ?_⟩
          simp [valid_lead_no_store, copy_writes_no_store, Event.isDiagnosisStore]
        · intro inbuf outbuf out _ _ _ hv _
          left
          refine ⟨hv, ⟨hh, hf⟩, ?_⟩
          simp [valid_lead_no_store, copy_writes_no_store, Event.isDiagnosisStore]
      · right
        rw [cycle_bad_footer rnd ai_run block st hh hf]
        refine ⟨fun h => hf h.1.2, ?_, rfl, rfl⟩
        simp [Event.isDiagnosisStore]
    · right
      rw [cycle_bad_header rnd ai_run block st hh]
      refine ⟨fun h => hh h.1.1, ?_, rfl, rfl⟩
      simp [Event.isDiagnosisStore]
  refine ⟨?_, ?_, ?_, hval⟩
  · rcases key with ⟨h0, hacc, hw⟩ | ⟨hn, hw, _⟩
    · constructor
      · intro _; exact ⟨hacc, h0⟩
      · intro _; rw [hw]; simp
    · constructor
      · intro h; exact absurd hw h
      · intro h; exact absurd h hn
  · intro hacc
    rcases key with ⟨_, _, hw⟩ | ⟨hn, _, _⟩
    · exact hw
    · exact absurd hacc hn
  · intro hn
    rcases key with ⟨h0, hacc, _⟩ | ⟨_, hw, hd, hc⟩
    · exact absurd ⟨hacc, h0⟩ hn
    · exact ⟨hw, hd, hc⟩

theorem diagnosis_written_iff_witness :
    (cycle id (stub 0 [-3 / 10]) (framed 0xFF zero_payload 0xFE)
      (startup [] [0])).confidence_score = 0 ∧
    (cycle id (stub 0 [9 / 10]) (framed 0x00 zero_payload 0xFE)
      (startup [] [0])).diagnosis_result = 0 := by
  constructor
  · have h := (diagnosis_written_iff id (stub 0 [-3 / 10]) (framed 0xFF zero_payload 0xFE)
      (startup [] [0])).2.2.1
    have hv := ((diagnosis_written_iff id (stub 0 [-3 / 10])
      (framed 0xFF zero_payload 0xFE) (startup [] [0])).2.2.2
      ⟨framed_header _ _ _, framed_footer _ _ _ zero_payload_length⟩).2 [] [0] rfl rfl
    refine (h ?_).2.2
    rw [hv]
    simp only [stub]
    norm_num
  · have h := (diagnosis_written_iff id (stub 0 [9 / 10]) (framed 0x00 zero_payload 0xFE)
      (startup [] [0])).2.2.1
    refine (h ?_).2.1
    simp [framed]

/-! ## The vector submitted to the classifier -/

theorem normalized_payload_length (rnd : ℚ → ℚ) (block : List Byte) (old : List ℚ) :
    (normalized_payload rnd block old).length = old.length := by
  rw [normalized_payload, normalize_stft_data_length]

theorem normalized_payload_getElem? (rnd : ℚ → ℚ) (block : List Byte) (old : List ℚ)
    (i : Nat) (hi : i < 4096) (ho : old.length = 4096) :
    (normalized_payload rnd block old)[i]? =
      some (rnd (((((block[i + 1]?).getD 0).val : ℕ) : ℚ) / 255)) := by
  rw [normalized_payload, normalize_stft_data_getElem? rnd _ old i hi ho]
  simp [List.getElem?_drop]

theorem copied_input_length (src inbuf : List ℚ) :
    (copied_input src inbuf).length = inbuf.length := by
  rw [copied_input, copy_loop_length]

theorem copied_input_getElem? (src inbuf : List ℚ) (i : Nat) (hi : i < 4096)
    (hb : inbuf.length = 4096) :
    (copied_input src inbuf)[i]? = some ((src[i]?).getD 0) := by
  rw [copied_input, copy_loop_getElem?]
  simp [hi, hb]

theorem submitted_getElem? (rnd : ℚ → ℚ) (block : List Byte) (old inbuf : List ℚ)
    (i : Nat) (hi : i < 4096) (ho : old.length = 4096) (hb : inbuf.length = 4096) :
    (copied_input (normalized_payload rnd block old) inbuf)[i]? =
      some (rnd (((((block[i + 1]?).getD 0).val : ℕ) : ℚ) / 255)) := by
  rw [copied_input_getElem? _ _ i hi hb, normalized_payload_getElem? rnd block old i hi ho]
  simp

theorem cycle_lengths (rnd : ℚ → ℚ) (ai_run : AiRun) (block : List Byte) (st : State) :
    (cycle rnd ai_run block st).normalized_stft.length = st.normalized_stft.length ∧
    (∀ inbuf, st.data_ins0 = some inbuf →
      ∃ inbuf2, (cycle rnd ai_run block st).data_ins0 = some inbuf2 ∧
        inbuf2.length = inbuf.length) := by
  by_cases hh : block[0]? = some 0xFF
  · by_cases hf : block[4097]? = some 0xFE
    · refine cycle_valid_elim rnd ai_run block st hh hf
        (fun s _ => s.normalized_stft.length = st.normalized_stft.length ∧
          (∀ inbuf, st.data_ins0 = some inbuf →
            ∃ inbuf2, s.data_ins0 = some inbuf2 ∧ inbuf2.length = inbuf.length))
        ?_ ?_ ?_ ?_ ?_
      · intro _
        exact ⟨normalized_payload_length _ _ _, fun inbuf h => ⟨inbuf, h, rfl⟩⟩
      · intro inbuf outbuf rc out hi _ _ _
        refine ⟨normalized_payload_length _ _ _, fun b h => ⟨_, rfl, ?_⟩⟩
        rw [copied_input_length, Option.some.inj (hi.symm.trans h)]
      · intro inbuf outbuf out hi _ _ _
        refine ⟨normalized_payload_length _ _ _, fun b h => ⟨_, rfl, ?_⟩⟩
        rw [copied_input_length, Option.some.inj (hi.symm.trans h)]
      · intro inbuf outbuf out hi _ _ _
        refine ⟨normalized_payload_length _ _ _, fun b h => ⟨_, rfl, ?_⟩⟩
        rw [copied_input_length, Option.some.inj (hi.symm.trans h)]
      · intro inbuf outbuf out hi _ _ _ _
        refine ⟨normalized_payload_length _ _ _, fun b h => ⟨_, rfl, ?_⟩⟩
        rw [copied_input_length, Option.some.inj (hi.symm.trans h)]
    · rw [cycle_bad_footer rnd ai_run block st hh hf]
      exact ⟨rfl, fun inbuf h => ⟨inbuf, h, rfl⟩⟩
  · rw [cycle_bad_header rnd ai_run block st hh]
    exact ⟨rfl, fun inbuf h => ⟨inbuf, h, rfl⟩⟩

/-- The array sizes of the startup state persist: after any sequence of cycles
`normalized_stft` still has 4096 elements and the classifier input is still
bound to a buffer of its initial size. -/
theorem run_lengths (rnd : ℚ → ℚ) (cycles : List (AiRun × List Byte)) (st : State)
    (inbuf : List ℚ) (hi : st.data_ins0 = some inbuf) :
    (run rnd cycles st).normalized_stft.length = st.normalized_stft.length ∧
    ∃ inbuf2, (run rnd cycles st).data_ins0 = some inbuf2 ∧
      inbuf2.length = inbuf.length := by
  induction cycles generalizing st inbuf with
  | nil => exact ⟨rfl, inbuf, hi, rfl⟩
  | cons c cs ih =>
    obtain ⟨hn, b, hb, hbl⟩ := cycle_lengths rnd c.1 c.2 st
      |>.imp_right (fun h => h inbuf hi)
    obtain ⟨hn2, b2, hb2, hbl2⟩ := ih (cycle rnd c.1 c.2 st) b hb
    refine ⟨?_, b2, ?_, ?_⟩
    · simpa [run, hn] using hn2
    · simpa [run] using hb2
    · rw [hbl2, hbl]

/-- C11: when an accepted 4098-byte block is processed with the classifier bound
(input buffer and `normalized_stft` of 4096 floats each), `ai_run` is called
once, on a vector of exactly 4096 elements whose element `i` is the float
quotient of block byte `i + 1` by 255, for every `i < 4096`: the payload of
offsets 1..4096, in order.  The header and the footer do not contribute: a
block with the same bytes at offsets 1..4096 gives the same vector. -/
theorem classifier_input_is_payload (rnd : ℚ → ℚ) (ai_run : AiRun) (block : List Byte)
    (st : State) (inbuf outbuf : List ℚ)
    (hlen : block.length = 4098) (hh : block[0] = 0xFF) (hf : block[4097] = 0xFE)
    (hi : st.data_ins0 = some inbuf) (ho : st.data_outs0 = some outbuf)
    (hn : st.normalized_stft.length = 4096) (hb : inbuf.length = 4096) :
    (cycle rnd ai_run block st).trace.filter Event.isAiRun =
      [Event.aiRun (copied_input (normalized_payload rnd block st.normalized_stft) inbuf)] ∧
    (copied_input (normalized_payload rnd block st.normalized_stft) inbuf).length = 4096 ∧
    (∀ i (hi : i < 4096),
      (copied_input (normalized_payload rnd block st.normalized_stft) inbuf)[i]? =
        some (rnd (((block[i + 1].val : ℕ) : ℚ) / 255))) ∧
    (∀ block2 : List Byte, block2.length = 4098 →
      (∀ k, 1 ≤ k → k ≤ 4096 → block2[k]? = block[k]?) →
      copied_input (normalized_payload rnd block2 st.normalized_stft) inbuf =
        copied_input (normalized_payload rnd block st.normalized_stft) inbuf) := by
  have e0 : block[0]? = some 0xFF := by
    rw [List.getElem?_eq_getElem (show 0 < block.length by omega), hh]
  have e1 : block[4097]? = some 0xFE := by
    rw [List.getElem?_eq_getElem (show 4097 < block.length by omega), hf]
  have hlead : valid_lead.filter Event.isAiRun = [] :=
    filter_valid_lead _ rfl (fun _ => rfl) rfl rfl rfl
  have hcw : copy_writes.filter Event.isAiRun = [] :=
    filter_copy_writes _ (fun _ => rfl)
  refine ⟨?_, ?_, ?_, ?_⟩
  · refine cycle_valid_elim rnd ai_run block st e0 e1
      (fun s _ => s.trace.filter Event.isAiRun =
        [Event.aiRun (copied_input (normalized_payload rnd block st.normalized_stft) inbuf)])
      ?_ ?_ ?_ ?_ ?_
    · intro hnull
      rcases hnull with h | h
      · rw [hi] at h; exact Option.noConfusion h
      · rw [ho] at h; exact Option.noConfusion h
    · intro inbuf2 outbuf2 rc out hi2 _ _ _
      have hsame : inbuf2 = inbuf := Option.some.inj (hi2.symm.trans hi)
      subst hsame
      simp [hlead, hcw, Event.isAiRun]
    · intro inbuf2 outbuf2 out hi2 _ _ _
      have hsame : inbuf2 = inbuf := Option.some.inj (hi2.symm.trans hi)
      subst hsame
      simp [hlead, hcw, Event.isAiRun]
    · intro inbuf2 outbuf2 out hi2 _ _ _
      have hsame : inbuf2 = inbuf := Option.some.inj (hi2.symm.trans hi)
      subst hsame
      simp [hlead, hcw, Event.isAiRun]
    · intro inbuf2 outbuf2 out hi2 _ _ _ _
      have hsame : inbuf2 = inbuf := Option.some.inj (hi2.symm.trans hi)
      subst hsame
      simp [hlead, hcw, Event.isAiRun]
  · rw [copied_input_length, hb]
  · intro i hi4
    rw [submitted_getElem? rnd block st.normalized_stft inbuf i hi4 hn hb,
      List.getElem?_eq_getElem (show i + 1 < block.length by omega)]
    rfl
  · intro block2 _ hsame
    apply List.ext_getElem?
    intro i
    by_cases hi4 : i < 4096
    · rw [submitted_getElem? rnd block2 st.normalized_stft inbuf i hi4 hn hb,
        submitted_getElem? rnd block st.normalized_stft inbuf i hi4 hn hb,
        hsame (i + 1) (by omega) (by omega)]
    · rw [List.getElem?_eq_none (by rw [copied_input_length, hb]; omega),
        List.getElem?_eq_none (by rw [copied_input_length, hb]; omega)]

theorem classifier_input_is_payload_witness :
    (framed 0xFF zero_payload 0xFE).length = 4098 ∧
    (cycle id (stub 0 [1 / 5]) (framed 0xFF zero_payload 0xFE)
        (startup (List.replicate 4096 7) [0])).trace.filter Event.isAiRun =
      [Event.aiRun (copied_input
        (normalized_payload id (framed 0xFF zero_payload 0xFE) (List.replicate 4096 0))
        (List.replicate 4096 7))] ∧
    (copied_input
        (normalized_payload id (framed 0xFF zero_payload 0xFE) (List.replicate 4096 0))
        (List.replicate 4096 7)).length = 4096 :=
  ⟨framed_length _ _ _ zero_payload_length,
   (classifier_input_is_payload id (stub 0 [1 / 5]) (framed 0xFF zero_payload 0xFE)
      (startup (List.replicate 4096 7) [0]) (List.replicate 4096 7) [0]
      (framed_length _ _ _ zero_payload_length) rfl
      (Option.some.inj ((List.getElem?_eq_getElem _).symm.trans
        (framed_footer _ _ _ zero_payload_length)))
      rfl rfl (List.length_replicate _ _) (List.length_replicate _ _)).1,
   (classifier_input_is_payload id (stub 0 [1 / 5]) (framed 0xFF zero_payload 0xFE)
      (startup (List.replicate 4096 7) [0]) (List.replicate 4096 7) [0]
      (framed_length _ _ _ zero_payload_length) rfl
      (Option.some.inj ((List.getElem?_eq_getElem _).symm.trans
        (framed_footer _ _ _ zero_payload_length)))
      rfl rfl (List.length_replicate _ _) (List.length_replicate _ _)).2.1⟩

end MotorFault
